import Mathlib

/-!
Verification development for the STM32 programmer core
(`stm32_programmer/programmers/base.py` and `core.py`).

Conventions of the shallow embedding:
* Python `bytes` values are `List Nat` (each element is one byte value).
* Python `str` values are `List Char`.
* Fallible Python code returns `Except PyExc _`; a caught exception class
  is modelled by fields of `PyExc`.
* Effectful reads (flash read-back, serial chunks) are passed in as
  explicit arguments, so every definition is executable.
-/

namespace STM32


/-- Abstract Python exception value.  `kills` records whether the handler
that produced it also set `selected_uart = None` (as `send_command_uart`
does when the `is_open` probe reports a closed handle). -/
structure PyExc where
  tag : Nat
  kills : Bool := false
  deriving DecidableEq, Repr

/-! ## Byte-string helpers (Python `bytes` methods) -/

/-- The byte whitespace set of Python `bytes.strip()`: `b" \t\n\r\x0b\x0c"`. -/
def isSpaceByte (b : Nat) : Bool :=
  b == 0x20 || b == 0x09 || b == 0x0A || b == 0x0D || b == 0x0B || b == 0x0C

/-- `bytes.lstrip()` with the default whitespace set. -/
def lstripBytes (l : List Nat) : List Nat := l.dropWhile isSpaceByte

/-- `bytes.rstrip()` with the default whitespace set. -/
def rstripBytes (l : List Nat) : List Nat := (l.reverse.dropWhile isSpaceByte).reverse

/-- `bytes.strip()` with the default whitespace set. -/
def stripBytes (l : List Nat) : List Nat := rstripBytes (lstripBytes l)

/-- Membership in `b"\r\n"` (the character set of `rstrip(b"\r\n")`;
`rstrip(b"\n\r")` uses the same set). -/
def isCRLFByte (b : Nat) : Bool := b == 0x0D || b == 0x0A

/-- `bytes.rstrip(b"\r\n")` (and equally `rstrip(b"\n\r")`): removes every
trailing byte drawn from the set `{CR, LF}`. -/
def rstripCRLF (l : List Nat) : List Nat := (l.reverse.dropWhile isCRLFByte).reverse

/-! ## `BaseProgrammer._verify_write` (base.py:988-1187), comparison part

The read-back itself is an effect of the backend fallback chain; the
function below receives the read-back bytes (`read_data` after the read
loop at base.py:994-1075) and performs exactly the comparison of
base.py:1077-1141.  An empty read-back is the "could not read" branch. -/

/-- `while len(read_data) > 0 and read_data[-1] == 0xFF: read_data = read_data[:-1]`
(base.py:1081-1082). -/
def stripTrailingFF (l : List Nat) : List Nat :=
  (l.reverse.dropWhile (· == 0xFF)).reverse

/-- The structured content of the mismatch detail string built at
base.py:1121-1133: the first differing offset with the two byte values,
and the length discrepancy, each present iff the code appends it. -/
structure VerifyDetail where
  firstMismatch : Option (Nat × Nat × Nat)
  lengthMismatch : Option (Nat × Nat)
  deriving DecidableEq, Repr

/-- Result of `_verify_write`: `(True, None)`, the read-failure branch
(base.py:1072-1079), or `(False, detail)`. -/
inductive VerifyResult where
  | ok
  | readFailed
  | mismatch (d : VerifyDetail)
  deriving DecidableEq, Repr

/-- The scan of base.py:1111-1119: first index below both lengths where
the byte of `expected` differs from the byte of `read_trimmed`. -/
def firstMismatchAux : List Nat → List Nat → Nat → Option (Nat × Nat × Nat)
  | e :: es, r :: rs, i =>
      if e ≠ r then some (i, e, r) else firstMismatchAux es rs (i + 1)
  | _, _, _ => none

/-- `BaseProgrammer._verify_write`, comparison part (base.py:1077-1141),
applied to the written bytes and the raw read-back bytes. -/
def verify_write (expected_data read_data : List Nat) : VerifyResult :=
  if read_data.isEmpty then .readFailed
  else
    let stripped := stripTrailingFF read_data
    let read_trimmed := stripped.take expected_data.length
    if read_trimmed == expected_data then .ok
    else
      .mismatch
        { firstMismatch := firstMismatchAux expected_data read_trimmed 0
          lengthMismatch :=
            if read_trimmed.length ≠ expected_data.length then
              some (expected_data.length, read_trimmed.length)
            else none }

/-- `write_bytes` after a backend write succeeded (base.py:962-972):
verification success gives `(True, None)`, anything else gives
`(False, some detail-message)`. -/
def write_bytes_after_write (expected_data read_data : List Nat) :
    Bool × Option VerifyResult :=
  match verify_write expected_data read_data with
  | .ok => (true, none)
  | r => (false, some r)

/-! ## `send_command_uart` response processing (base.py:1650-1678)

On a non-empty capture buffer the code runs
`response = buffer.strip()` then `response = response.rstrip(b"\r\n").rstrip(b"\n\r")`
and returns `response == expected_response`; on an empty buffer `response`
stays `None` and the comparison is false.  The expected response was
normalised by `expected_response.strip()` at entry (base.py:1295/1306).
None of this depends on the configured line-ending mode, which is used
only when terminating the outbound command (base.py:1308-1318). -/

/-- base.py:1651-1652 applied to a captured buffer. -/
def processResponse (buffer : List Nat) : List Nat :=
  rstripCRLF (rstripCRLF (stripBytes buffer))

/-- The comparison outcome of one `send_command_uart` call, as a function
of the raw captured buffer and the caller-supplied expected response. -/
def send_command_uart_compare (buffer expected : List Nat) : Bool :=
  let expected := stripBytes expected
  if buffer.isEmpty then false
  else processResponse buffer == expected

/-- Modelled from the spec: strip exactly one trailing CR, LF, or CRLF
(claim C5's wording), used only to compare against the code's behaviour. -/
def stripOneLineEnding (l : List Nat) : List Nat :=
  if l.reverse.take 2 == [0x0A, 0x0D] then l.take (l.length - 2)
  else if l.reverse.take 1 == [0x0A] || l.reverse.take 1 == [0x0D] then
    l.take (l.length - 1)
  else l

/-- Modelled from the spec: the comparison claim C5 describes. -/
def claimC5_compare (buffer expected : List Nat) : Bool :=
  stripOneLineEnding buffer == expected

/-! ## Char-string helpers (Python `str` methods, ASCII fragment) -/

/-- The ASCII whitespace characters of Python `str.strip()`. -/
def isSpaceChar (c : Char) : Bool :=
  c == ' ' || c == '\t' || c == '\n' || c == '\r' || c == '\x0b' || c == '\x0c'

/-- `str.lstrip()`. -/
def lstripChars (l : List Char) : List Char := l.dropWhile isSpaceChar

/-- `str.rstrip()`. -/
def rstripChars (l : List Char) : List Char := (l.reverse.dropWhile isSpaceChar).reverse

/-- `str.strip()`. -/
def stripChars (l : List Char) : List Char := rstripChars (lstripChars l)

/-- `str.split(sep)` with a single-character separator and no limit
(keeps empty pieces; splitting the empty string yields `[[]]`). -/
def splitOnChar (sep : Char) : List Char → List (List Char)
  | [] => [[]]
  | c :: cs =>
      match splitOnChar sep cs with
      | [] => [[]]
      | h :: t => if c == sep then [] :: h :: t else (c :: h) :: t

/-! ## `parse_status_response` (core.py:432-501)

Each stripped non-empty line is split on the first `:` when one is
present, else on the first `=` (`line.split(sep, 1)`); the stripped key
and value are stored when the key is non-empty (`if key and value is not
None`), a repeated key overwriting the earlier value (`status_dict[key] =
value`). -/

/-- The per-line step of core.py:447-491: `none` means the line was
counted as skipped. -/
def parseLine (line : List Char) : Option (List Char × List Char) :=
  let s := stripChars line
  if s.isEmpty then none
  else if s.contains ':' then
    let key := stripChars (s.takeWhile (· != ':'))
    let value := stripChars ((s.dropWhile (· != ':')).drop 1)
    if key.isEmpty then none else some (key, value)
  else if s.contains '=' then
    let key := stripChars (s.takeWhile (· != '='))
    let value := stripChars ((s.dropWhile (· != '=')).drop 1)
    if key.isEmpty then none else some (key, value)
  else none

/-- `status_dict[key] = value` on an insertion-ordered dict. -/
def updateAssoc (m : List (List Char × List Char)) (k v : List Char) :
    List (List Char × List Char) :=
  if m.any (fun p => decide (p.1 = k)) then
    m.map (fun p => if p.1 = k then (k, v) else p)
  else m ++ [(k, v)]

/-- `status_dict.get(key)`. -/
def lookupAssoc (m : List (List Char × List Char)) (k : List Char) :
    Option (List Char) :=
  (m.find? (fun p => decide (p.1 = k))).map (·.2)

/-- One iteration of the `for line in lines` loop (core.py:447-491). -/
def parseStep (m : List (List Char × List Char)) (line : List Char) :
    List (List Char × List Char) :=
  match parseLine line with
  | some (k, v) => updateAssoc m k v
  | none => m

def parseStatusLines (lines : List (List Char)) : List (List Char × List Char) :=
  lines.foldl parseStep []

/-- `parse_status_response` (core.py:432-501): empty input yields the
empty dict; otherwise the stripped text is split on `\n` and folded. -/
def parse_status_response (text : List Char) : List (List Char × List Char) :=
  if text.isEmpty then [] else parseStatusLines (splitOnChar '\n' (stripChars text))

/-! ## `send_command_uart` read loop (base.py:1575-1643) and the inline
mode-switch sender of `program_device` (core.py:1445-1567)

The serial line is modelled as the list of chunks the `in_waiting`-driven
loop would deliver; an exhausted list is the timeout.  The loop appends
each non-empty chunk and stops as soon as the buffer holds a CR or LF
byte, or contains the expected response as a substring. -/

/-- `b"\n" in buffer or b"\r" in buffer` (base.py:1616). -/
def hasEOL (buf : List Nat) : Bool := buf.contains 0x0A || buf.contains 0x0D

/-- `needle` is an initial run of `hay`. -/
def listStartsWith {α : Type} [BEq α] : List α → List α → Bool
  | [], _ => true
  | _ :: _, [] => false
  | a :: as, b :: bs => a == b && listStartsWith as bs

/-- Python `needle in hay` on `bytes`/`str`: contiguous-substring
containment. -/
def containsSeq {α : Type} [BEq α] (needle : List α) : List α → Bool
  | [] => needle.isEmpty
  | b :: bs => listStartsWith needle (b :: bs) || containsSeq needle bs

/-- The accumulation loop of base.py:1577-1643 / core.py:1453-1474. -/
def readLoop (expected : List Nat) : List (List Nat) → List Nat → List Nat
  | [], buf => buf
  | c :: cs, buf =>
      if c.isEmpty then readLoop expected cs buf
      else
        let buf' := buf ++ c
        if hasEOL buf' || containsSeq expected buf' then buf'
        else readLoop expected cs buf'

/-- One whole `send_command_uart` call after a successful write: single
read window, then the comparison of base.py:1650-1678.  There is no
second read window in base.py:1266-1737: an empty buffer goes straight to
the `response == expected_response` comparison (false) and the
diagnostics block. -/
def send_command_uart_model (chunks : List (List Nat)) (expected : List Nat) :
    Bool :=
  let expected := stripBytes expected
  let buffer := readLoop expected chunks []
  if buffer.isEmpty then false
  else processResponse buffer == expected

/-- The delayed extra read window of core.py:1515-1541: terminator-only
framing (no expected-substring check). -/
def delayedReadLoop : List (List Nat) → List Nat → List Nat
  | [], buf => buf
  | c :: cs, buf =>
      if c.isEmpty then delayedReadLoop cs buf
      else
        let buf' := buf ++ c
        if hasEOL buf' then buf' else delayedReadLoop cs buf'

/-- One send attempt of the inline mode-switch loop of `program_device`
(core.py:1445-1567): the main read window, and — only when it captured
nothing — a single delayed late-arrival read window.  `expected` arrives
pre-stripped (core.py:1305). -/
def modeSwitchAttemptRead (chunks lateChunks : List (List Nat))
    (expected : List Nat) : Bool :=
  let buffer := readLoop expected chunks []
  if buffer.isEmpty then
    let d := delayedReadLoop lateChunks []
    if d.isEmpty then false
    else processResponse d == expected
  else processResponse buffer == expected

/-- Modelled from the spec: claim C6's reading of `send_command_uart`,
with the delayed late-arrival window inside the session-level call
itself.  Used only to compare with the code's behaviour. -/
def claimC6_send (chunks lateChunks : List (List Nat)) (expected : List Nat) :
    Bool :=
  let expected := stripBytes expected
  let buffer := readLoop expected chunks []
  if buffer.isEmpty then
    let d := readLoop expected lateChunks []
    if d.isEmpty then false
    else processResponse d == expected
  else processResponse buffer == expected

/-! ## `detect_serial_port` (core.py:131-249)

UART candidates come from `list_ports.comports()`; ST-Link identity from
`programmer.selected` (the `device_info` dict of base.py:694-711, whose
`serial` key is only set when non-empty). -/

/-- One `serial.tools.list_ports` entry, restricted to the fields
`detect_serial_port` reads.  `hwid` models `port.hwid or ""`. -/
structure SerialPortInfo where
  device : List Char
  vid : Option Nat
  pid : Option Nat
  hwid : List Char
  serial_number : Option (List Char)
  description : Option (List Char)
  deriving DecidableEq, Repr

/-- The `selected_device` dict fields used for pairing. -/
structure StLinkDevice where
  serial : Option (List Char)
  usb_bus : Option Nat
  usb_address : Option Nat
  deriving DecidableEq, Repr

def lowerChars (l : List Char) : List Char := l.map Char.toLower

def upperChars (l : List Char) : List Char := l.map Char.toUpper

/-- Python truthiness of an optional string. -/
def truthyStr : Option (List Char) → Bool
  | some s => !s.isEmpty
  | none => false

/-- `f"{n:03d}"`. -/
def pad3 (n : Nat) : List Char :=
  let ds := Nat.toDigits 10 n
  List.replicate (3 - ds.length) '0' ++ ds

/-- `is_target_uart` (core.py:146-151): exact (vid, pid) match when both
are known, otherwise the `VID:PID=1A86:7523` signature in the
upper-cased hwid. -/
def is_target_uart (p : SerialPortInfo) : Bool :=
  match p.vid, p.pid with
  | some v, some pr => v == 0x1A86 && pr == 0x7523
  | _, _ =>
      containsSeq
        ['V', 'I', 'D', ':', 'P', 'I', 'D', '=', '1', 'A', '8', '6', ':',
          '7', '5', '2', '3'] (upperChars p.hwid)

/-- Rule (a), core.py:171-180: case-insensitive serial-number substring
match in either direction, both serials non-empty. -/
def serialRule (d : StLinkDevice) (p : SerialPortInfo) : Bool :=
  match d.serial, p.serial_number with
  | some ds, some ps =>
      !ds.isEmpty && !ps.isEmpty &&
        (containsSeq (lowerChars ds) (lowerChars ps) ||
          containsSeq (lowerChars ps) (lowerChars ds))
  | _, _ => false

/-- The bus substring patterns of core.py:183-189. -/
def busPatterns (b : Nat) : List (List Char) :=
  [[':'] ++ pad3 b ++ ['.'],
   [':'] ++ pad3 b ++ [':'],
   ['B', 'U', 'S'] ++ pad3 b,
   ['B', 'U', 'S'] ++ Nat.toDigits 10 b,
   ['B', 'U', 'S', ' '] ++ Nat.toDigits 10 b]

/-- Rule (b), core.py:182-195: a bus pattern inside the upper-cased hwid. -/
def busRule (d : StLinkDevice) (p : SerialPortInfo) : Bool :=
  match d.usb_bus with
  | some b => (busPatterns b).any fun pat => containsSeq pat (upperChars p.hwid)
  | none => false

/-- The address substring patterns of core.py:198-202. -/
def addrPatterns (a : Nat) : List (List Char) :=
  [[':'] ++ pad3 a ++ ['.'],
   [':'] ++ pad3 a ++ [':'],
   ['A', 'D', 'D', 'R'] ++ pad3 a]

/-- Rule (c), core.py:197-208. -/
def addrRule (d : StLinkDevice) (p : SerialPortInfo) : Bool :=
  match d.usb_address with
  | some a => (addrPatterns a).any fun pat => containsSeq pat (upperChars p.hwid)
  | none => false

/-- Rule (d), core.py:225-232: probe-brand marker in a truthy
description. -/
def descRule (p : SerialPortInfo) : Bool :=
  match p.description with
  | some ds =>
      !ds.isEmpty &&
        (containsSeq ['S', 'T', '-', 'L', 'I', 'N', 'K'] (upperChars ds) ||
          containsSeq ['S', 'T', 'L', 'I', 'N', 'K'] (upperChars ds))
  | none => false

/-- The guard of core.py:167: the signal loop runs only when the probe
offers at least one identifying datum. -/
def hasAnySignal (d : StLinkDevice) : Bool :=
  d.usb_bus.isSome || d.usb_address.isSome || truthyStr d.serial

/-- A candidate matches some device-level signal for this probe (the
loop body of core.py:168-232 sets `found_port` for this port). -/
def signalMatch (d : StLinkDevice) (p : SerialPortInfo) : Bool :=
  serialRule d p || busRule d p || addrRule d p || descRule p

/-- `detect_serial_port` (core.py:131-249). -/
def detect_serial_port (d : Option StLinkDevice) (ports : List SerialPortInfo) :
    Option (List Char) :=
  match d with
  | none => none
  | some dev =>
      if ports.isEmpty then none
      else
        let matching := ports.filter is_target_uart
        if matching.isEmpty then none
        else
          let found : Option (List Char) :=
            if hasAnySignal dev then
              (matching.find? (signalMatch dev)).map (·.device)
            else none
          match found with
          | some port => some port
          | none =>
              match matching with
              | [p] => some p.device
              | _ => none

/-! ## `write_bytes` backend fallback chain (base.py:726-986)

Every backend interaction is an effect; its outcome is supplied by a
`WriteEnv`.  Faithful control flow of base.py:

* backend 1 `STLinkProgrammerLib` (735-757): skipped with an
  "unavailable" record when the module is missing; its `write_bytes`
  call is NOT wrapped in `try` — an exception propagates.
* backend 2 `STM32CubeProgrammer` (759-778) and backend 3 `OpenOCD`
  (780-797): entered only while `success` is false; "not found" is
  recorded and falls through; the write call is unprotected.
* backend 4 direct-USB `STLinkProgrammer` (799-957): exceptions from its
  write are re-raised (as `RuntimeError`, base.py:827-871); when the
  write returns false and the programmer has `reconnect` (stlink.py:48),
  one reconnect-and-retry is made, whose exceptions are also re-raised. -/

inductive Backend where
  | lib | cube | oocd | direct
  deriving DecidableEq, Repr

/-- One entry of `attempted_methods`. -/
inductive Attempt where
  | tried (b : Backend)
  | unavailable (b : Backend)
  deriving DecidableEq, Repr

def Attempt.backendOf : Attempt → Backend
  | .tried b => b
  | .unavailable b => b

/-- Outcome of one of the first three backends. -/
inductive BackendOutcome where
  | notFound
  | writeOk
  | writeFail
  | raises (e : PyExc)
  deriving DecidableEq, Repr

structure WriteEnv where
  lib : BackendOutcome
  cube : BackendOutcome
  oocd : BackendOutcome
  direct : Except PyExc Bool
  reconnect : Except PyExc Bool
  directRetry : Except PyExc Bool

/-- How `write_bytes` leaves the backend chain (before verification). -/
inductive WriteChainResult where
  | noDevice
  | unsupported
  | success (b : Backend)
  | allFailed
  | raised (e : PyExc)
  deriving DecidableEq, Repr

/-- Backend 4 (base.py:799-957), including the reconnect retry. -/
def chainDirect (env : WriteEnv) (att : List Attempt) :
    List Attempt × WriteChainResult :=
  let att := att ++ [Attempt.tried .direct]
  match env.direct with
  | .error e => (att, .raised e)
  | .ok true => (att, .success .direct)
  | .ok false =>
      match env.reconnect with
      | .error e => (att, .raised e)
      | .ok false => (att, .allFailed)
      | .ok true =>
          match env.directRetry with
          | .error e => (att, .raised e)
          | .ok true => (att, .success .direct)
          | .ok false => (att, .allFailed)

/-- Backend 3 (base.py:780-797). -/
def chainOocd (env : WriteEnv) (att : List Attempt) :
    List Attempt × WriteChainResult :=
  match env.oocd with
  | .notFound => chainDirect env (att ++ [Attempt.unavailable .oocd])
  | .writeOk => (att ++ [Attempt.tried .oocd], .success .oocd)
  | .writeFail => chainDirect env (att ++ [Attempt.tried .oocd])
  | .raises e => (att ++ [Attempt.tried .oocd], .raised e)

/-- Backend 2 (base.py:759-778). -/
def chainCube (env : WriteEnv) (att : List Attempt) :
    List Attempt × WriteChainResult :=
  match env.cube with
  | .notFound => chainOocd env (att ++ [Attempt.unavailable .cube])
  | .writeOk => (att ++ [Attempt.tried .cube], .success .cube)
  | .writeFail => chainOocd env (att ++ [Attempt.tried .cube])
  | .raises e => (att ++ [Attempt.tried .cube], .raised e)

/-- The backend chain of `write_bytes` (base.py:726-986), from the
`self.selected` guard to the first write success, exhaustion, or escaped
exception. -/
def write_bytes_chain (selected stlink : Bool) (env : WriteEnv) :
    List Attempt × WriteChainResult :=
  match selected, stlink with
  | false, _ => ([], .noDevice)
  | _, false => ([], .unsupported)
  | true, true =>
    match env.lib with
    | .notFound => chainCube env [Attempt.unavailable .lib]
    | .writeOk => ([Attempt.tried .lib], .success .lib)
    | .writeFail => chainCube env [Attempt.tried .lib]
    | .raises e => ([Attempt.tried .lib], .raised e)

/-- The env says backend `b`'s write came back true (for `direct`:
directly, or on the post-reconnect retry). -/
def envWriteOk (env : WriteEnv) : Backend → Prop
  | .lib => env.lib = .writeOk
  | .cube => env.cube = .writeOk
  | .oocd => env.oocd = .writeOk
  | .direct => env.direct = .ok true ∨
      (env.direct = .ok false ∧ env.reconnect = .ok true ∧
        env.directRetry = .ok true)

/-- An `attempted_methods` entry that did not produce a success:
an unavailable backend, or one whose write returned false. -/
def attemptNonSuccess (env : WriteEnv) : Attempt → Bool
  | .unavailable _ => true
  | .tried .lib => decide (env.lib = .writeFail)
  | .tried .cube => decide (env.cube = .writeFail)
  | .tried .oocd => decide (env.oocd = .writeFail)
  | .tried .direct => match env.direct with
      | .ok false => true
      | _ => false

/-! ## `_parse_intel_hex` (core.py:262-340) and `load_firmware_image`
(core.py:252-259)

The file is the list of its lines.  Each error constructor is one
`raise` site; all are Python `ValueError` except `indexError`, the
uncaught `record[4 + byte_count]` access past the end of a short record
(a Python `IndexError`), and `fileNotFound` (core.py:255-256). -/

inductive ParseErr where
  | noColon (ln : Nat)
  | badHex (ln : Nat)
  | tooShort (ln : Nat)
  | checksum (ln : Nat)
  | badSegLength (ln : Nat)
  | badLinLength (ln : Nat)
  | emptyImage
  | indexError (ln : Nat)
  | fileNotFound
  deriving DecidableEq, Repr

/-- `program_device` catches `(FileNotFoundError, ValueError)` around the
loader (core.py:1879); an `IndexError` escapes that handler. -/
def ParseErr.isCaughtByLoader : ParseErr → Bool
  | .indexError _ => false
  | _ => true

def hexVal? (c : Char) : Option Nat :=
  if '0' ≤ c ∧ c ≤ '9' then some (c.toNat - '0'.toNat)
  else if 'a' ≤ c ∧ c ≤ 'f' then some (c.toNat - 'a'.toNat + 10)
  else if 'A' ≤ c ∧ c ≤ 'F' then some (c.toNat - 'A'.toNat + 10)
  else none

/-- `bytes.fromhex`: pairs of hex digits, single spaces allowed between
pairs, anything else (odd digit, stray character) is an error. -/
def fromHex : List Char → Option (List Nat)
  | [] => some []
  | ' ' :: rest => fromHex rest
  | c₁ :: c₂ :: rest =>
      match hexVal? c₁, hexVal? c₂ with
      | some h, some l => (fromHex rest).map fun bs => (h * 16 + l) :: bs
      | _, _ => none
  | [_] => none

/-- The accumulated parse state of core.py:263-266: an insertion-ordered
`data_bytes` dict plus the addressing state. -/
structure HexState where
  data : List (Nat × Nat)
  upper : Nat
  segBase : Nat
  useLinear : Bool
  deriving Repr

/-- `data_bytes[k] = v` (dict overwrite). -/
def storeByte (m : List (Nat × Nat)) (k v : Nat) : List (Nat × Nat) :=
  if m.any (fun p => decide (p.1 = k)) then
    m.map fun p => if p.1 = k then (k, v) else p
  else m ++ [(k, v)]

/-- `for offset, value in enumerate(payload): data_bytes[addr+offset] = value`
(core.py:305-306). -/
def storeRun (m : List (Nat × Nat)) (addr : Nat) : List Nat → List (Nat × Nat)
  | [] => m
  | v :: vs => storeRun (storeByte m addr v) (addr + 1) vs

/-- One line of the record loop (core.py:269-328).  `ok none` is the EOF
record (type 0x01, `break`). -/
def parseHexLine (ln : Nat) (st : HexState) (line : List Char) :
    Except ParseErr (Option HexState) :=
  let s := stripChars line
  if s.isEmpty then .ok (some st)
  else if s.head? ≠ some ':' then .error (.noColon ln)
  else
    match fromHex (s.drop 1) with
    | none => .error (.badHex ln)
    | some record =>
        if record.length < 5 then .error (.tooShort ln)
        else
          let byte_count := record.getD 0 0
          let address := record.getD 1 0 * 256 + record.getD 2 0
          let record_type := record.getD 3 0
          let payload := (record.drop 4).take byte_count
          if record.length ≤ 4 + byte_count then .error (.indexError ln)
          else
            let checksum := record.getD (4 + byte_count) 0
            if (record.dropLast.sum + checksum) % 256 ≠ 0 then
              .error (.checksum ln)
            else if record_type = 0x00 then
              let abs :=
                if st.useLinear then st.upper * 65536 + address
                else st.segBase + address
              .ok (some { st with data := storeRun st.data abs payload })
            else if record_type = 0x01 then .ok none
            else if record_type = 0x02 then
              if byte_count ≠ 2 then .error (.badSegLength ln)
              else .ok (some { st with
                segBase := (payload.getD 0 0 * 256 + payload.getD 1 0) * 16
                useLinear := false })
            else if record_type = 0x04 then
              if byte_count ≠ 2 then .error (.badLinLength ln)
              else .ok (some { st with
                upper := payload.getD 0 0 * 256 + payload.getD 1 0
                useLinear := true })
            else .ok (some st)

def parseHexLines (ln : Nat) (st : HexState) :
    List (List Char) → Except ParseErr HexState
  | [] => .ok st
  | l :: ls =>
      match parseHexLine ln st l with
      | .error e => .error e
      | .ok none => .ok st
      | .ok (some st₂) => parseHexLines (ln + 1) st₂ ls

/-- `_parse_intel_hex` (core.py:262-340): fold the lines, then build the
`0xFF`-padded image over `[min_address, max_address]`. -/
def parse_intel_hex (lines : List (List Char)) :
    Except ParseErr (Nat × List Nat) :=
  match parseHexLines 1 ⟨[], 0, 0, false⟩ lines with
  | .error e => .error e
  | .ok st =>
      match st.data with
      | [] => .error .emptyImage
      | q :: qs =>
          let ks := (q :: qs).map Prod.fst
          let mn := ks.foldl Nat.min q.1
          let mx := ks.foldl Nat.max q.1
          let image := (List.range (mx - mn + 1)).map fun i =>
            match (q :: qs).find? (fun p => decide (p.1 = mn + i)) with
            | some p => p.2
            | none => 0xFF
          .ok (mn, image)

/-! ## `program_device` (core.py:1146-2172), orchestration skeleton

The run is modelled against an environment that fixes the outcome of
every effectful step; the model yields the `(success, message)` result,
the per-mode `results` dict, and the trace of hardware-facing events, so
ordering and always-runs-finally claims are statements about the trace.
An exception value with `kills = true` models the handlers that null out
`selected_uart` before re-raising (base.py:1345-1350). -/

inductive Mode where
  | LV | HV
  deriving DecidableEq, Repr

inductive Event where
  | usbDiscover
  | uartSendPowerOn
  | uartSendModeSwitch (m : Mode)
  | loadImage (m : Mode)
  | flashWrite (m : Mode)
  | uartSendPowerCycleOff (m : Mode)
  | uartSendPowerCycleOn (m : Mode)
  | runTests
  | uartSendPowerOffFinal
  | directWriteOffFinal
  | closeUart
  deriving DecidableEq, Repr

/-- Events that touch the board or the buses (everything except parsing
the firmware file from disk). -/
def Event.isHardwareIO : Event → Bool
  | .loadImage _ => false
  | _ => true

/-- The outcomes of the per-image steps (core.py:1276-2039). -/
structure ModeEnv where
  switch : Except PyExc Bool
  confirm : Except PyExc Bool
  redetect : Bool
  load : Except ParseErr (Nat × List Nat)
  writeRes : Except PyExc Bool
  cycleOff : Except PyExc Bool
  cycleOn : Except PyExc Bool
  stopAtLoopStart : Bool
  stopAtStabilize : Bool
  stopAtPostSelect : Bool
  stopBeforeWrite : Bool
  stopAtLvWait : Bool

/-- `close_uart` internals (base.py:576-667). -/
structure CloseEnv where
  isOpen : Except PyExc Bool
  readBuf : Except PyExc Unit
  resetBufs : Except PyExc Unit
  readBuf2 : Except PyExc Unit
  closeCall : Except PyExc Unit

/-- The outcomes of the run-level steps. -/
structure PDEnv where
  findDevices : Except PyExc Bool
  indexValid : Bool
  uartPortKnown : Bool
  connect : Except PyExc Unit
  powerOn : Except PyExc Bool
  stopAfterPowerOn : Bool
  lvGiven : Bool
  hvGiven : Bool
  modeEnv : Mode → ModeEnv
  testPlan : Except PyExc Bool
  finallyIsOpen : Except PyExc Bool
  finallySend : Except PyExc Bool
  finallyIsOpen2 : Except PyExc Bool
  finallyDirect : Except PyExc Unit
  closeEnv : CloseEnv

inductive PDMsg where
  | noDevices
  | badIndex
  | powerOnFailed
  | stoppedByUser
  | noFirmware
  | writeFailed (m : Mode)
  | modesFailed (ms : List Mode)
  | successAllTests
  | testsFailed
  | critical (tag : Nat)
  deriving DecidableEq, Repr

/-- Mutable run state: accumulated trace, whether `selected_uart` is a
live session, and the `results` dict. -/
structure RunSt where
  trace : List Event
  uartAlive : Bool
  results : List (Mode × Bool)
  deriving Repr

/-- How the `try` body of core.py:1178-2083 ends. -/
inductive BodyRes where
  | done (r : Bool × PDMsg)
  | raised (e : PyExc)
  deriving Repr

/-- `results[target_mode] = b` (dict overwrite). -/
def recordResult (rs : List (Mode × Bool)) (m : Mode) (b : Bool) :
    List (Mode × Bool) :=
  if rs.any (fun p => p.1 == m) then
    rs.map fun p => if p.1 == m then (m, b) else p
  else rs ++ [(m, b)]

/-- An exception ending the body, clearing the session when its handler
nulled `selected_uart`. -/
def raiseSt (st : RunSt) (e : PyExc) : RunSt :=
  { st with uartAlive := st.uartAlive && !e.kills }

/-- Early-exit plumbing for one image: `error (st, none)` is Python
`continue` (image recorded, loop goes on), `error (st, some r)` leaves
the loop (a `return` or a raised exception), `ok st` proceeds to the
next phase. -/
abbrev PhaseRes := Except (RunSt × Option BodyRes) RunSt

/-- The mode-switch phase (core.py:1288-1866): inline switch machinery,
confirmation loop, stabilization stop-checks, probe re-discovery.
Skipped entirely when no UART port name is known (core.py:1865-1866). -/
def switchPhase (env : PDEnv) (m : Mode) (st : RunSt) : PhaseRes :=
  if !env.uartPortKnown then .ok st
  else
    let st := { st with trace := st.trace ++ [Event.uartSendModeSwitch m] }
    match (env.modeEnv m).switch with
    | .error e => .error (raiseSt st e, some (.raised e))
    | .ok false =>
        .error ({ st with results := recordResult st.results m false }, none)
    | .ok true =>
        match (env.modeEnv m).confirm with
        | .error e => .error (raiseSt st e, some (.raised e))
        | .ok false =>
            .error ({ st with results := recordResult st.results m false },
              none)
        | .ok true =>
            if (env.modeEnv m).stopAtStabilize then
              .error (st, some (.done (false, .stoppedByUser)))
            else
              let st := { st with trace := st.trace ++ [Event.usbDiscover] }
              if !(env.modeEnv m).redetect then
                .error ({ st with results := recordResult st.results m false },
                  none)
              else if (env.modeEnv m).stopAtPostSelect then
                .error (st, some (.done (false, .stoppedByUser)))
              else .ok st

/-- The firmware-load phase (core.py:1875-1885): a caught loader error
records the image as failed and continues; an uncaught one (IndexError)
is re-raised to the run-level handler. -/
def loadPhase (env : PDEnv) (m : Mode) (st : RunSt) : PhaseRes :=
  let st := { st with trace := st.trace ++ [Event.loadImage m] }
  match (env.modeEnv m).load with
  | .error e =>
      if e.isCaughtByLoader then
        .error ({ st with results := recordResult st.results m false }, none)
      else .error (st, some (.raised ⟨99, false⟩))
  | .ok _ => .ok st

/-- The write phase (core.py:1903-1928): a failed verified write returns
overall failure at once. -/
def writePhase (env : PDEnv) (m : Mode) (st : RunSt) : PhaseRes :=
  if (env.modeEnv m).stopBeforeWrite then
    .error (st, some (.done (false, .stoppedByUser)))
  else
    let st := { st with trace := st.trace ++ [Event.flashWrite m] }
    match (env.modeEnv m).writeRes with
    | .error e => .error (st, some (.raised e))
    | .ok false =>
        .error ({ st with results := recordResult st.results m false },
          some (.done (false, .writeFailed m)))
    | .ok true => .ok st

/-- The power-cycle phase (core.py:1930-1963); the acks are not
inspected, only a raised exception matters. -/
def cyclePhase (env : PDEnv) (m : Mode) (st : RunSt) : PhaseRes :=
  let st := { st with trace := st.trace ++ [Event.uartSendPowerCycleOff m] }
  match (env.modeEnv m).cycleOff with
  | .error e => .error (raiseSt st e, some (.raised e))
  | .ok _ =>
      let st := { st with trace := st.trace ++ [Event.uartSendPowerCycleOn m] }
      match (env.modeEnv m).cycleOn with
      | .error e => .error (raiseSt st e, some (.raised e))
      | .ok _ => .ok { st with results := recordResult st.results m true }

/-- The post-LV reconnect block (core.py:1976-2039): stop-checks, then a
re-discovery whose failure is logged but not fatal. -/
def lvPhase (env : PDEnv) (m : Mode) (st : RunSt) : PhaseRes :=
  if m == Mode.LV then
    if (env.modeEnv m).stopAtLvWait then
      .error (st, some (.done (false, .stoppedByUser)))
    else .ok { st with trace := st.trace ++ [Event.usbDiscover] }
  else .ok st

/-- One iteration of the `for mode_idx, (target_mode, firmware_path)`
loop (core.py:1276-2039). -/
def runOneImage (env : PDEnv) (m : Mode) (st : RunSt) :
    RunSt × Option BodyRes :=
  if (env.modeEnv m).stopAtLoopStart then
    (st, some (.done (false, .stoppedByUser)))
  else
    match switchPhase env m st with
    | .error r => r
    | .ok st =>
        match loadPhase env m st with
        | .error r => r
        | .ok st =>
            match writePhase env m st with
            | .error r => r
            | .ok st =>
                match cyclePhase env m st with
                | .error r => r
                | .ok st =>
                    match lvPhase env m st with
                    | .error r => r
                    | .ok st => (st, none)

def runImages (env : PDEnv) : List Mode → RunSt → RunSt × Option BodyRes
  | [], st => (st, none)
  | m :: ms, st =>
      match runOneImage env m st with
      | (st₂, some r) => (st₂, some r)
      | (st₂, none) => runImages env ms st₂

/-- The `try` body of core.py:1178-2083. -/
def runBody (env : PDEnv) : RunSt × BodyRes :=
  let st0 : RunSt := ⟨[], false, []⟩
  if !env.indexValid then (st0, .done (false, .badIndex))
  else
    let st1 :=
      if env.uartPortKnown then { st0 with uartAlive := true } else st0
    match (if env.uartPortKnown then env.connect else .ok ()) with
    | .error e => (st0, .raised e)
    | .ok _ =>
        if !st1.uartAlive then
          -- send_command_uart with selected_uart = None raises before any
          -- hardware write (base.py:1330-1334)
          (st1, .raised ⟨1, false⟩)
        else
          let st2 := { st1 with trace := st1.trace ++ [Event.uartSendPowerOn] }
          match env.powerOn with
          | .error e => (raiseSt st2 e, .raised e)
          | .ok false => (st2, .done (false, .powerOnFailed))
          | .ok true =>
              if env.stopAfterPowerOn then
                (st2, .done (false, .stoppedByUser))
              else
                let configs :=
                  (if env.lvGiven then [Mode.LV] else []) ++
                  (if env.hvGiven then [Mode.HV] else [])
                if configs.isEmpty then (st2, .done (false, .noFirmware))
                else
                  match runImages env configs st2 with
                  | (st3, some r) => (st3, r)
                  | (st3, none) =>
                      let success :=
                        !st3.results.isEmpty && st3.results.all (·.2)
                      if success then
                        if st3.uartAlive then
                          let st4 := { st3 with
                            trace := st3.trace ++ [Event.runTests] }
                          match env.testPlan with
                          | .error e => (raiseSt st4 e, .raised e)
                          | .ok true => (st4, .done (true, .successAllTests))
                          | .ok false => (st4, .done (false, .testsFailed))
                        else (st3, .done (true, .successAllTests))
                      else
                        (st3, .done (false, .modesFailed
                          ((st3.results.filter fun p => !p.2).map (·.1))))

/-- `close_uart` (base.py:576-667).  Every branch of the Python function
swallows its exception and sets `selected_uart = None`: the inner
`raise` of base.py:597 lands in the outer `except` of base.py:658-667,
each buffer operation catches its I/O errors in place, and a non-OS
exception anywhere lands in the catch-all of base.py:665-667.  The
result is the session slot afterwards (`none` = discarded). -/
def close_uart (uartExists : Bool) (env : CloseEnv) :
    Except PyExc (Option Unit) :=
  if !uartExists then .ok none
  else
    match env.isOpen with
    | .error _ => .ok none
    | .ok false => .ok none
    | .ok true =>
        match env.readBuf with
        | .error _ => .ok none
        | .ok _ =>
            match env.resetBufs with
            | .error _ => .ok none
            | .ok _ =>
                match env.readBuf2 with
                | .error _ => .ok none
                | .ok _ =>
                    match env.closeCall with
                    | .error _ => .ok none
                    | .ok _ => .ok none

/-- The `finally` block (core.py:2099-2171): best-effort power-off while
the session is open (its own failure falls back to a bare write, and
every exception is swallowed by the handlers of core.py:2128-2164), then
`close_uart`. -/
def runFinallyBlock (uartAlive : Bool) (env : PDEnv) :
    Except PyExc (List Event) :=
  let powerOffEvts : List Event :=
    if uartAlive then
      match env.finallyIsOpen with
      | .error _ => []
      | .ok false => []
      | .ok true =>
          match env.finallySend with
          | .ok _ => [Event.uartSendPowerOffFinal]
          | .error _ =>
              match env.finallyIsOpen2 with
              | .error _ => [Event.uartSendPowerOffFinal]
              | .ok false => [Event.uartSendPowerOffFinal]
              | .ok true =>
                  match env.finallyDirect with
                  | .ok _ =>
                      [Event.uartSendPowerOffFinal, Event.directWriteOffFinal]
                  | .error _ =>
                      [Event.uartSendPowerOffFinal, Event.directWriteOffFinal]
    else []
  match close_uart uartAlive env.closeEnv with
  | .ok _ => .ok (powerOffEvts ++ [Event.closeUart])
  | .error e => .error e

/-- The run-level handler of core.py:2085-2098: a raised body exception
becomes `(False, "Критическая ошибка ...")`. -/
def bodyMsg : BodyRes → Bool × PDMsg
  | .done r => r
  | .raised e => (false, .critical e.tag)

/-- The run's observable outcome: the event trace, the returned (or
escaped) result, and the final `results` dict. -/
structure PDOut where
  trace : List Event
  result : Except PyExc (Bool × PDMsg)
  results : List (Mode × Bool)
  deriving Repr

/-- `program_device` (core.py:1146-2172).  `find_devices` runs BEFORE
the `try` (core.py:1168): its exception escapes the function and no
`finally` runs; every exception inside the body is converted to
`(False, "Критическая ошибка ...")` by the handler at core.py:2085-2098,
and the `finally` block always follows the body. -/
def program_device (env : PDEnv) : PDOut :=
  match env.findDevices with
  | .error e => ⟨[Event.usbDiscover], .error e, []⟩
  | .ok false =>
      ⟨[Event.usbDiscover, Event.closeUart], .ok (false, .noDevices), []⟩
  | .ok true =>
      let (st, br) := runBody env
      match runFinallyBlock st.uartAlive env with
      | .ok ftr =>
          ⟨Event.usbDiscover :: (st.trace ++ ftr), .ok (bodyMsg br), st.results⟩
      | .error e => ⟨Event.usbDiscover :: st.trace, .error e, st.results⟩

/-- A happy-path per-image environment, for concrete instantiations. -/
def modeEnvOk : ModeEnv where
  switch := .ok true
  confirm := .ok true
  redetect := true
  load := .ok (0x08000000, [0x01, 0x02])
  writeRes := .ok true
  cycleOff := .ok true
  cycleOn := .ok true
  stopAtLoopStart := false
  stopAtStabilize := false
  stopAtPostSelect := false
  stopBeforeWrite := false
  stopAtLvWait := false

/-- A happy-path run environment, for concrete instantiations. -/
def envBase : PDEnv where
  findDevices := .ok true
  indexValid := true
  uartPortKnown := true
  connect := .ok ()
  powerOn := .ok true
  stopAfterPowerOn := false
  lvGiven := true
  hvGiven := true
  modeEnv := fun _ => modeEnvOk
  testPlan := .ok true
  finallyIsOpen := .ok true
  finallySend := .ok true
  finallyIsOpen2 := .ok true
  finallyDirect := .ok ()
  closeEnv :=
    { isOpen := .ok true, readBuf := .ok (), resetBufs := .ok (),
      readBuf2 := .ok (), closeCall := .ok () }

/-- The LV image is malformed; everything else is healthy. -/
def envC7 : PDEnv :=
  { envBase with
    modeEnv := fun m =>
      match m with
      | .LV => { modeEnvOk with load := .error (.checksum 3) }
      | .HV => modeEnvOk }

/-- The power-on command is sent but never acknowledged. -/
def envC9 : PDEnv := { envBase with powerOn := .ok false }

/-- The LV mode switch exhausts its retries; HV is healthy. -/
def envC8 : PDEnv :=
  { envBase with
    modeEnv := fun m =>
      match m with
      | .LV => { modeEnvOk with switch := .ok false }
      | .HV => modeEnvOk }

/-- The switch pipeline of one image runs clean up to the firmware load. -/
def switchPrefixOk (me : ModeEnv) : Prop :=
  me.stopAtLoopStart = false ∧ me.switch = .ok true ∧ me.confirm = .ok true ∧
  me.stopAtStabilize = false ∧ me.redetect = true ∧ me.stopAtPostSelect = false

/-- Every step of one image succeeds. -/
def imagePipelineOk (me : ModeEnv) : Prop :=
  switchPrefixOk me ∧ (∃ a d, me.load = .ok (a, d)) ∧
  me.stopBeforeWrite = false ∧ me.writeRes = .ok true ∧
  me.cycleOff = .ok true ∧ me.cycleOn = .ok true ∧ me.stopAtLvWait = false

/-! # Theorems -/

/-! ## Supporting lemmas -/

theorem dropWhile_dropWhile_of_imp {α : Type} (p q : α → Bool)
    (h : ∀ a, q a = false → p a = false) (l : List α) :
    (l.dropWhile q).dropWhile p = l.dropWhile q := by
  induction l with
  | nil => rfl
  | cons a t ih =>
      by_cases hq : q a
      · simp [List.dropWhile_cons, hq, ih]
      · simp [List.dropWhile_cons, hq, h a (by simpa using hq)]

theorem isCRLFByte_of_space (b : Nat) (h : isSpaceByte b = false) :
    isCRLFByte b = false := by
  simp only [isSpaceByte, Bool.or_eq_false_iff, beq_eq_false_iff_ne, ne_eq] at h
  simp only [isCRLFByte, Bool.or_eq_false_iff, beq_eq_false_iff_ne, ne_eq]
  omega

theorem rstripCRLF_stripBytes (l : List Nat) :
    rstripCRLF (stripBytes l) = stripBytes l := by
  unfold rstripCRLF stripBytes rstripBytes
  rw [List.reverse_reverse,
    dropWhile_dropWhile_of_imp isCRLFByte isSpaceByte isCRLFByte_of_space]

theorem processResponse_eq_stripBytes (buffer : List Nat) :
    processResponse buffer = stripBytes buffer := by
  unfold processResponse
  rw [rstripCRLF_stripBytes, rstripCRLF_stripBytes]

/-- `firstMismatchAux e r i = some (j, a, b)` means: there is an offset
`k` with `j = i + k`, at `k` the two lists are defined and differ with
values `a`, `b`, and all earlier offsets agree. -/
theorem firstMismatchAux_some (e : List Nat) : ∀ (r : List Nat) (i j a b : Nat),
    firstMismatchAux e r i = some (j, a, b) →
    ∃ k, j = i + k ∧ k < e.length ∧ k < r.length ∧
      e.getD k 0 = a ∧ r.getD k 0 = b ∧ a ≠ b ∧
      ∀ m, m < k → e.getD m 0 = r.getD m 0 := by
  induction e with
  | nil => intro r i j a b h; simp [firstMismatchAux] at h
  | cons x xs ih =>
      intro r i j a b h
      match r with
      | [] => simp [firstMismatchAux] at h
      | y :: ys =>
          by_cases hxy : x ≠ y
          · simp only [firstMismatchAux, if_pos hxy, Option.some.injEq,
              Prod.mk.injEq] at h
            refine ⟨0, by omega, by simp, by simp, ?_, ?_, ?_, ?_⟩
            · simpa using h.2.1
            · simpa using h.2.2
            · rw [← h.2.1, ← h.2.2]; exact hxy
            · intro m hm; omega
          · simp only [firstMismatchAux, if_neg hxy] at h
            obtain ⟨k, hk, hke, hkr, ha, hb, hab, hpre⟩ := ih ys (i + 1) j a b h
            push_neg at hxy
            refine ⟨k + 1, by omega, by simpa using hke, by simpa using hkr,
              by simpa using ha, by simpa using hb, hab, ?_⟩
            intro m hm
            match m with
            | 0 => simpa using hxy
            | m + 1 => simpa using hpre m (by omega)

/-- `firstMismatchAux e r i = none` means the two lists agree on every
offset where both are defined. -/
theorem firstMismatchAux_none (e : List Nat) : ∀ (r : List Nat) (i : Nat),
    firstMismatchAux e r i = none →
    ∀ k, k < e.length → k < r.length → e.getD k 0 = r.getD k 0 := by
  induction e with
  | nil => intro r i _ k hk; simp at hk
  | cons x xs ih =>
      intro r i h k hke hkr
      match r with
      | [] => simp at hkr
      | y :: ys =>
          by_cases hxy : x ≠ y
          · simp [firstMismatchAux, if_pos hxy] at h
          · simp only [firstMismatchAux, if_neg hxy] at h
            push_neg at hxy
            match k with
            | 0 => simpa using hxy
            | k + 1 =>
                simpa using ih ys (i + 1) h k (by simpa using hke)
                  (by simpa using hkr)

/-! ## Claim C1 -/

/-- C1, counterexample: the written image `[0x01, 0x02]` is read back as
`[0x01, 0xFF]` — a single differing byte at offset 1 (`0xFF` read where
`0x02` was written).  `_verify_write` strips the trailing `0xFF` first, so
its detail carries NO first-mismatch offset, only the length discrepancy;
the claim requires the offset-1 mismatch with the two byte values to be
reported. -/
theorem verify_write_missing_offset_counterexample :
    verify_write [1, 2] [1, 0xFF] =
      .mismatch { firstMismatch := none, lengthMismatch := some (2, 1) }
    ∧ [1, 0xFF].getD 1 0 ≠ [1, 2].getD 1 0 := by
  constructor
  · rfl
  · decide

/-- C1, amended: with a non-empty read-back, `write_bytes` returns success
with no detail iff the read-back, after stripping trailing `0xFF` and
truncating to the written length, equals the written bytes; otherwise the
detail reports the length discrepancy exactly when the truncated lengths
differ, and its first-mismatch field is exactly the least offset (with the
two byte values) at which written and truncated read-back both exist and
differ — a differing byte whose position is lost to the trailing-`0xFF`
strip surfaces only through the length discrepancy. -/
theorem verify_write_roundtrip_spec (expected read : List Nat) (h : read ≠ []) :
    (write_bytes_after_write expected read = (true, none) ↔
      (stripTrailingFF read).take expected.length = expected)
    ∧ ((stripTrailingFF read).take expected.length ≠ expected →
        ∃ d, verify_write expected read = .mismatch d
          ∧ d.lengthMismatch =
              (if ((stripTrailingFF read).take expected.length).length =
                  expected.length then none
               else some (expected.length,
                 ((stripTrailingFF read).take expected.length).length))
          ∧ (∀ i a b, d.firstMismatch = some (i, a, b) →
               expected.getD i 0 = a
               ∧ ((stripTrailingFF read).take expected.length).getD i 0 = b
               ∧ a ≠ b
               ∧ i < expected.length
               ∧ i < ((stripTrailingFF read).take expected.length).length
               ∧ ∀ j, j < i → expected.getD j 0 =
                   ((stripTrailingFF read).take expected.length).getD j 0)
          ∧ (d.firstMismatch = none →
               ∀ i, i < expected.length →
                 i < ((stripTrailingFF read).take expected.length).length →
                 expected.getD i 0 =
                   ((stripTrailingFF read).take expected.length).getD i 0)) := by
  have hre : read.isEmpty = false := by
    cases read with
    | nil => exact absurd rfl h
    | cons a t => rfl
  set trimmed := (stripTrailingFF read).take expected.length with htr
  constructor
  · constructor
    · intro hw
      unfold write_bytes_after_write verify_write at hw
      simp only [hre, Bool.false_eq_true, if_false] at hw
      by_cases heq : trimmed == expected
      · exact by simpa using heq
      · rw [← htr, if_neg (by simpa using heq)] at hw
        simp at hw
    · intro heq
      unfold write_bytes_after_write verify_write
      simp only [hre, Bool.false_eq_true, if_false]
      rw [← htr, if_pos (by simpa using heq)]
  · intro hne
    refine ⟨{ firstMismatch := firstMismatchAux expected trimmed 0
              lengthMismatch :=
                if trimmed.length ≠ expected.length then
                  some (expected.length, trimmed.length)
                else none }, ?_, ?_, ?_, ?_⟩
    · unfold verify_write
      simp only [hre, Bool.false_eq_true, if_false]
      rw [← htr, if_neg (by simpa using hne)]
    · by_cases hl : trimmed.length = expected.length
      · simp [hl]
      · simp [hl]
    · intro i a b hfm
      obtain ⟨k, hk, hke, hkt, ha, hb, hab, hpre⟩ :=
        firstMismatchAux_some expected trimmed 0 i a b hfm
      have hik : i = k := by omega
      subst hik
      exact ⟨ha, hb, hab, hke, hkt, hpre⟩
    · intro hfm i hie hit
      exact firstMismatchAux_none expected trimmed 0 hfm i hie hit

/-- Witness for `verify_write_roundtrip_spec` at the concrete input
`expected = [1, 2]`, `read = [1, 3, 0xFF]`. -/
theorem verify_write_roundtrip_spec_witness :
    ([1, 3, 0xFF] : List Nat) ≠ [] ∧
    (write_bytes_after_write [1, 2] [1, 3, 0xFF] = (true, none) ↔
      (stripTrailingFF [1, 3, 0xFF]).take ([1, 2] : List Nat).length = [1, 2]) :=
  ⟨by decide, (verify_write_roundtrip_spec [1, 2] [1, 3, 0xFF] (by decide)).1⟩

/-! ## Claim C5 -/

/-- C5, counterexample: captured buffer `b"OK\r\n\r\n"` against expected
`b"OK"`.  The code's processing (`strip()` then `rstrip`) removes BOTH
trailing CRLF pairs and answers true; stripping exactly one trailing CRLF,
as the claim states, leaves `b"OK\r\n"` and would answer false. -/
theorem send_command_uart_strip_counterexample :
    send_command_uart_compare [0x4F, 0x4B, 0x0D, 0x0A, 0x0D, 0x0A] [0x4F, 0x4B] = true
    ∧ claimC5_compare [0x4F, 0x4B, 0x0D, 0x0A, 0x0D, 0x0A] [0x4F, 0x4B] = false := by
  constructor <;> rfl

/-- C5, amended: `send_command_uart` strips ALL leading and trailing ASCII
whitespace (in particular any number of trailing CR/LF bytes in any order)
from the captured response, strips the expected response the same way, and
returns true iff the two results are byte-for-byte equal and the capture
was non-empty — independent of the configured line-ending mode, which only
affects the outbound command. -/
theorem send_command_uart_compare_spec (buffer expected : List Nat) :
    send_command_uart_compare buffer expected =
      (!buffer.isEmpty && (stripBytes buffer == stripBytes expected)) := by
  unfold send_command_uart_compare
  by_cases hb : buffer.isEmpty
  · simp [hb]
  · simp only [hb, Bool.not_false, Bool.true_and, if_neg,
      Bool.false_eq_true, not_false_eq_true]
    rw [processResponse_eq_stripBytes]

theorem lookupAssoc_updateAssoc_self (m : List (List Char × List Char))
    (k v : List Char) : lookupAssoc (updateAssoc m k v) k = some v := by
  unfold updateAssoc
  by_cases hany : m.any (fun p => decide (p.1 = k))
  · simp only [hany, if_true]
    induction m with
    | nil => simp at hany
    | cons p t ih =>
        by_cases hp : p.1 = k
        · simp [lookupAssoc, List.find?_cons, hp]
        · have ht : t.any (fun p => decide (p.1 = k)) := by
            simp only [List.any_cons, decide_eq_true_eq, hp] at hany
            simpa using hany
          simp only [List.map_cons, if_neg hp]
          simpa [lookupAssoc, List.find?_cons, hp] using ih ht
  · simp only [hany, if_false]
    have hnone : m.find? (fun p => decide (p.1 = k)) = none := by
      rw [List.find?_eq_none]
      intro p hp
      simp only [List.any_eq_true, decide_eq_true_eq] at hany
      simp only [decide_eq_true_eq]
      exact fun hk => hany ⟨p, hp, hk⟩
    simp [lookupAssoc, List.find?_append, hnone, List.find?_cons]

theorem lookupAssoc_map_overwrite (t : List (List Char × List Char))
    (k v q : List Char) (h : q ≠ k) :
    lookupAssoc (t.map (fun p => if p.1 = k then (k, v) else p)) q =
      lookupAssoc t q := by
  induction t with
  | nil => rfl
  | cons p t ih =>
      rw [List.map_cons]
      by_cases hp : p.1 = k
      · rw [if_pos hp]
        unfold lookupAssoc
        rw [List.find?_cons_of_neg _
            (by simp only [decide_eq_true_eq]; exact fun hkq => h hkq.symm),
          List.find?_cons_of_neg _
            (by simp only [decide_eq_true_eq]; exact fun hpq => h (hpq ▸ hp))]
        exact ih
      · rw [if_neg hp]
        by_cases hpq : p.1 = q
        · unfold lookupAssoc
          rw [List.find?_cons_of_pos _ (by simp [hpq]),
            List.find?_cons_of_pos _ (by simp [hpq])]
        · unfold lookupAssoc
          rw [List.find?_cons_of_neg _ (by simp [hpq]),
            List.find?_cons_of_neg _ (by simp [hpq])]
          exact ih

theorem lookupAssoc_updateAssoc_ne (m : List (List Char × List Char))
    (k v q : List Char) (h : q ≠ k) :
    lookupAssoc (updateAssoc m k v) q = lookupAssoc m q := by
  unfold updateAssoc
  by_cases hany : m.any (fun p => decide (p.1 = k))
  · rw [if_pos hany]
    exact lookupAssoc_map_overwrite m k v q h
  · rw [if_neg hany]
    have hlast : (([(k, v)] : List (List Char × List Char)).find?
        (fun p => decide (p.1 = q))) = none := by
      simp [List.find?_cons, Ne.symm h]
    simp [lookupAssoc, List.find?_append, hlast]

theorem lookupAssoc_foldl_parseStep (lines : List (List Char)) :
    ∀ (m : List (List Char × List Char)) (k : List Char),
    lookupAssoc (lines.foldl parseStep m) k =
      match (lines.filterMap parseLine).reverse.find?
          (fun p => decide (p.1 = k)) with
      | some p => some p.2
      | none => lookupAssoc m k := by
  induction lines with
  | nil => intro m k; rfl
  | cons line rest ih =>
      intro m k
      rw [List.foldl_cons, ih]
      cases hpl : parseLine line with
      | none => simp [List.filterMap_cons, hpl, parseStep]
      | some kv =>
          obtain ⟨k0, v0⟩ := kv
          simp only [List.filterMap_cons, hpl, List.reverse_cons,
            List.find?_append, parseStep]
          cases hfind : (rest.filterMap parseLine).reverse.find?
              (fun p => decide (p.1 = k)) with
          | some p => simp [Option.or]
          | none =>
              by_cases hk : k0 = k
              · subst hk
                simp [Option.or, List.find?_cons, lookupAssoc_updateAssoc_self]
              · simp [Option.or, List.find?_cons, hk,
                  lookupAssoc_updateAssoc_ne m k0 v0 k fun hc => hk hc.symm]

theorem takeWhile_append_stop {α : Type} (p : α → Bool) (c : α)
    (pre post : List α) (hpre : ∀ a ∈ pre, p a = true) (hc : p c = false) :
    (pre ++ c :: post).takeWhile p = pre := by
  induction pre with
  | nil => simp [List.takeWhile_cons, hc]
  | cons a t ih =>
      simp only [List.cons_append, List.takeWhile_cons,
        hpre a (List.mem_cons_self a t), if_true]
      rw [ih fun b hb => hpre b (List.mem_cons_of_mem a hb)]

theorem dropWhile_append_stop {α : Type} (p : α → Bool) (c : α)
    (pre post : List α) (hpre : ∀ a ∈ pre, p a = true) (hc : p c = false) :
    (pre ++ c :: post).dropWhile p = c :: post := by
  induction pre with
  | nil => simp [List.dropWhile_cons, hc]
  | cons a t ih =>
      simp only [List.cons_append, List.dropWhile_cons,
        hpre a (List.mem_cons_self a t), if_true]
      exact ih fun b hb => hpre b (List.mem_cons_of_mem a hb)

/-! ## Claim C10 -/

/-- C10: for every status text, (i) looking up a key in the parsed dict
returns the value of the LAST line that parses to that key (find over the
reversed parse stream); (ii) a line whose stripped form decomposes as
`pre ++ ':' :: post` with no `:` in `pre` — even if it also contains `=` —
is split there, kept iff the stripped key is non-empty; (iii) the same for
`=` when no `:` occurs anywhere in the line; (iv) a line with neither
separator is skipped. -/
theorem parse_status_response_spec (text : List Char) (k : List Char)
    (h : text ≠ []) :
    (lookupAssoc (parse_status_response text) k =
      match ((splitOnChar '\n' (stripChars text)).filterMap parseLine).reverse.find?
          (fun p => decide (p.1 = k)) with
      | some p => some p.2
      | none => none)
    ∧ (∀ line pre post, stripChars line = pre ++ ':' :: post →
        (∀ a ∈ pre, a ≠ ':') →
        parseLine line =
          if (stripChars pre).isEmpty then none
          else some (stripChars pre, stripChars post))
    ∧ (∀ line pre post, stripChars line = pre ++ '=' :: post →
        (stripChars line).contains ':' = false →
        (∀ a ∈ pre, a ≠ '=') →
        parseLine line =
          if (stripChars pre).isEmpty then none
          else some (stripChars pre, stripChars post))
    ∧ (∀ line, (stripChars line).contains ':' = false →
        (stripChars line).contains '=' = false →
        parseLine line = none) := by
  refine ⟨?_, ?_, ?_, ?_⟩
  · have hte : text.isEmpty = false := by
      cases text with
      | nil => exact absurd rfl h
      | cons a t => rfl
    unfold parse_status_response
    rw [hte]
    simp only [Bool.false_eq_true, if_false]
    unfold parseStatusLines
    rw [lookupAssoc_foldl_parseStep]
    rfl
  · intro line pre post hdec hpre
    have hcontains : (stripChars line).contains ':' = true := by
      rw [hdec]; simp
    have hne : (stripChars line).isEmpty = false := by
      rw [hdec]; cases pre <;> rfl
    have htake : (stripChars line).takeWhile (· != ':') = pre := by
      rw [hdec]
      exact takeWhile_append_stop _ _ _ _
        (fun a ha => by simpa using hpre a ha) (by simp)
    have hdrop : (stripChars line).dropWhile (· != ':') = ':' :: post := by
      rw [hdec]
      exact dropWhile_append_stop _ _ _ _
        (fun a ha => by simpa using hpre a ha) (by simp)
    unfold parseLine
    simp only [hne, Bool.false_eq_true, if_false, hcontains, if_true,
      htake, hdrop, List.drop_succ_cons, List.drop_zero]
  · intro line pre post hdec hnocolon hpre
    have hcontains : (stripChars line).contains '=' = true := by
      rw [hdec]; simp
    have hne : (stripChars line).isEmpty = false := by
      rw [hdec]; cases pre <;> rfl
    have htake : (stripChars line).takeWhile (· != '=') = pre := by
      rw [hdec]
      exact takeWhile_append_stop _ _ _ _
        (fun a ha => by simpa using hpre a ha) (by simp)
    have hdrop : (stripChars line).dropWhile (· != '=') = '=' :: post := by
      rw [hdec]
      exact dropWhile_append_stop _ _ _ _
        (fun a ha => by simpa using hpre a ha) (by simp)
    unfold parseLine
    simp only [hne, Bool.false_eq_true, if_false, hnocolon, if_true,
      hcontains, htake, hdrop, List.drop_succ_cons, List.drop_zero]
  · intro line hc he
    have hc' : ¬ (':' ∈ stripChars line) := by simpa using hc
    have he' : ¬ ('=' ∈ stripChars line) := by simpa using he
    unfold parseLine
    by_cases hne : (stripChars line).isEmpty
    · simp [hne]
    · simp [hne, hc', he']

/-- Witness for `parse_status_response_spec` at the status text
`"A=1:x\nA:2\nA=3"`: the first line splits at its `:` (key `A=1`), and the
key `A` gets the value of the LAST line naming it, `3`. -/
theorem parse_status_response_spec_witness :
    (['A', '=', '1', ':', 'x', '\n', 'A', ':', '2', '\n', 'A', '=', '3']
      : List Char) ≠ []
    ∧ lookupAssoc (parse_status_response
        ['A', '=', '1', ':', 'x', '\n', 'A', ':', '2', '\n', 'A', '=', '3'])
        ['A'] = some ['3']
    ∧ lookupAssoc (parse_status_response
        ['A', '=', '1', ':', 'x', '\n', 'A', ':', '2', '\n', 'A', '=', '3'])
        ['A', '=', '1'] = some ['x'] := by
  refine ⟨by decide, ?_, ?_⟩
  · rw [(parse_status_response_spec
      ['A', '=', '1', ':', 'x', '\n', 'A', ':', '2', '\n', 'A', '=', '3']
      ['A'] (by decide)).1]
    rfl
  · rw [(parse_status_response_spec
      ['A', '=', '1', ':', 'x', '\n', 'A', ':', '2', '\n', 'A', '=', '3']
      ['A', '=', '1'] (by decide)).1]
    rfl

/-! ## Claim C6 -/

/-- C6, counterexample: the first read window captures nothing and
`b"OK\n"` arrives late.  The claim's send-and-expect (one delayed
late-arrival window inside `send_command_uart`) would answer true; the
code's `send_command_uart` answers false — it has no second window. -/
theorem send_command_uart_no_late_window_counterexample :
    send_command_uart_model [] [0x4F, 0x4B] = false
    ∧ claimC6_send [] [[0x4F, 0x4B, 0x0A]] [0x4F, 0x4B] = true := by
  constructor <;> rfl

/-- C6, amended: `send_command_uart` itself performs no late-arrival read
window — an empty capture from its single read window yields false with
no further read; the one delayed late-arrival read window after an
initial empty read belongs to `program_device`'s inline mode-switch
sender: per attempt, it reads the delayed window exactly when the main
window captured nothing, and never otherwise. -/
theorem send_command_uart_retry_spec :
    (∀ (chunks : List (List Nat)) (expected : List Nat),
      readLoop (stripBytes expected) chunks [] = [] →
      send_command_uart_model chunks expected = false)
    ∧ (∀ (main late : List (List Nat)) (expected : List Nat),
        readLoop expected main [] = [] →
        modeSwitchAttemptRead main late expected =
          (!(delayedReadLoop late []).isEmpty &&
            (processResponse (delayedReadLoop late []) == expected)))
    ∧ (∀ (main late₁ late₂ : List (List Nat)) (expected : List Nat),
        readLoop expected main [] ≠ [] →
        modeSwitchAttemptRead main late₁ expected =
          modeSwitchAttemptRead main late₂ expected) := by
  refine ⟨?_, ?_, ?_⟩
  · intro chunks expected hempty
    unfold send_command_uart_model
    simp [hempty]
  · intro main late expected hempty
    unfold modeSwitchAttemptRead
    simp only [hempty, List.isEmpty_nil, if_true]
    by_cases hd : (delayedReadLoop late []).isEmpty
    · simp [hd]
    · simp [hd]
  · intro main late₁ late₂ expected hne
    have h : (readLoop expected main []).isEmpty = false := by
      cases hml : readLoop expected main [] with
      | nil => exact absurd hml hne
      | cons a t => rfl
    unfold modeSwitchAttemptRead
    simp [h]

/-- Witness for `send_command_uart_retry_spec`: an empty first window and
a late `b"EN_12V=ON\n"`; the session-level call answers false, the inline
sender's delayed window accepts it. -/
theorem send_command_uart_retry_spec_witness :
    (readLoop (stripBytes [0x4F, 0x4B]) [] [] = []
      ∧ send_command_uart_model [] [0x4F, 0x4B] = false)
    ∧ (readLoop [0x4F, 0x4B] [] [] = []
      ∧ modeSwitchAttemptRead [] [[0x4F, 0x4B, 0x0A]] [0x4F, 0x4B] =
          (!(delayedReadLoop [[0x4F, 0x4B, 0x0A]] []).isEmpty &&
            (processResponse (delayedReadLoop [[0x4F, 0x4B, 0x0A]] []) ==
              [0x4F, 0x4B]))) :=
  ⟨⟨rfl, send_command_uart_retry_spec.1 [] [0x4F, 0x4B] rfl⟩,
   ⟨rfl, send_command_uart_retry_spec.2.1 [] [[0x4F, 0x4B, 0x0A]]
      [0x4F, 0x4B] rfl⟩⟩

/-! ## Claim C3 -/

/-- C3: `detect_serial_port` returns a port only when a device-level
signal (serial substring, bus substring, address substring, or probe-brand
description marker — available only when the probe offers any signal
datum) selects a filtered candidate, or exactly one filtered candidate
exists; zero filtered candidates give `None`, and two or more candidates
none of which signal-matches give `None`. -/
theorem detect_serial_port_spec (dev : StLinkDevice)
    (ports : List SerialPortInfo) :
    (∀ d, detect_serial_port (some dev) ports = some d →
      (∃ p, p ∈ ports.filter is_target_uart ∧ p.device = d ∧
        hasAnySignal dev = true ∧ signalMatch dev p = true)
      ∨ (∃ p, ports.filter is_target_uart = [p] ∧ p.device = d))
    ∧ (ports.filter is_target_uart = [] →
        detect_serial_port (some dev) ports = none)
    ∧ ((∀ p ∈ ports.filter is_target_uart, signalMatch dev p = false) →
        2 ≤ (ports.filter is_target_uart).length →
        detect_serial_port (some dev) ports = none) := by
  refine ⟨?_, ?_, ?_⟩
  · intro d hd
    unfold detect_serial_port at hd
    by_cases hpe : ports.isEmpty
    · simp [hpe] at hd
    · simp only [hpe, Bool.false_eq_true, if_false] at hd
      by_cases hme : (ports.filter is_target_uart).isEmpty
      · simp [hme] at hd
      · simp only [hme, Bool.false_eq_true, if_false] at hd
        by_cases hsig : hasAnySignal dev
        · simp only [hsig, if_true] at hd
          cases hfind : (ports.filter is_target_uart).find? (signalMatch dev) with
          | some p =>
              left
              refine ⟨p, List.mem_of_find?_eq_some hfind, ?_, hsig, ?_⟩
              · rw [hfind] at hd
                simpa using hd
              · exact List.find?_some hfind
          | none =>
              right
              rw [hfind] at hd
              cases hm : ports.filter is_target_uart with
              | nil => exact absurd (by simp [hm]) hme
              | cons p t =>
                  cases t with
                  | nil =>
                      rw [hm] at hd
                      exact ⟨p, rfl, by simpa using hd⟩
                  | cons q u => rw [hm] at hd; simp at hd
        · simp only [hsig, Bool.false_eq_true, if_false] at hd
          right
          cases hm : ports.filter is_target_uart with
          | nil => exact absurd (by simp [hm]) hme
          | cons p t =>
              cases t with
              | nil =>
                  rw [hm] at hd
                  exact ⟨p, rfl, by simpa using hd⟩
              | cons q u => rw [hm] at hd; simp at hd
  · intro hme
    unfold detect_serial_port
    by_cases hpe : ports.isEmpty
    · simp [hpe]
    · simp [hpe, hme]
  · intro hnone hlen
    unfold detect_serial_port
    by_cases hpe : ports.isEmpty
    · simp [hpe]
    · have hme : (ports.filter is_target_uart).isEmpty = false := by
        cases hm : ports.filter is_target_uart with
        | nil => rw [hm] at hlen; simp at hlen
        | cons p t => rfl
      have hfind : (ports.filter is_target_uart).find? (signalMatch dev)
          = none := by
        rw [List.find?_eq_none]
        intro p hp
        simp [hnone p hp]
      simp only [hpe, Bool.false_eq_true, if_false, hme]
      by_cases hsig : hasAnySignal dev
      · simp only [hsig, if_true, hfind, Option.map_none]
        cases hm : ports.filter is_target_uart with
        | nil => simp
        | cons p t =>
            cases t with
            | nil => rw [hm] at hlen; simp at hlen
            | cons q u => simp
      · simp only [hsig, Bool.false_eq_true, if_false]
        cases hm : ports.filter is_target_uart with
        | nil => simp
        | cons p t =>
            cases t with
            | nil => rw [hm] at hlen; simp at hlen
            | cons q u => simp

/-- Witness for `detect_serial_port_spec`: a probe with no identifying
datum and two filtered candidates — manual selection required, `None`. -/
theorem detect_serial_port_spec_witness :
    (∀ p ∈ ([⟨['a'], some 0x1A86, some 0x7523, [], none, none⟩,
             ⟨['b'], some 0x1A86, some 0x7523, [], none, none⟩]
        : List SerialPortInfo).filter is_target_uart,
      signalMatch ⟨none, none, none⟩ p = false)
    ∧ 2 ≤ (([⟨['a'], some 0x1A86, some 0x7523, [], none, none⟩,
             ⟨['b'], some 0x1A86, some 0x7523, [], none, none⟩]
        : List SerialPortInfo).filter is_target_uart).length
    ∧ detect_serial_port (some ⟨none, none, none⟩)
        [⟨['a'], some 0x1A86, some 0x7523, [], none, none⟩,
         ⟨['b'], some 0x1A86, some 0x7523, [], none, none⟩] = none := by
  refine ⟨?_, by decide, ?_⟩
  · decide
  · exact (detect_serial_port_spec ⟨none, none, none⟩
      [⟨['a'], some 0x1A86, some 0x7523, [], none, none⟩,
       ⟨['b'], some 0x1A86, some 0x7523, [], none, none⟩]).2.2
      (by decide) (by decide)

theorem wbchain_order (env : WriteEnv) :
    (write_bytes_chain true true env).1.map Attempt.backendOf =
      [Backend.lib, Backend.cube, Backend.oocd, Backend.direct].take
        (write_bytes_chain true true env).1.length := by
  obtain ⟨lib, cube, oocd, direc, reconnect, retry⟩ := env
  cases lib <;> cases cube <;> cases oocd <;> try rfl
  all_goals rcases direc with e | (_ | _) <;> try rfl
  all_goals rcases reconnect with e₂ | (_ | _) <;> try rfl
  all_goals rcases retry with e₃ | (_ | _) <;> rfl

theorem wbchain_success (env : WriteEnv) :
    ∀ b, (write_bytes_chain true true env).2 = .success b →
      ((write_bytes_chain true true env).1.map Attempt.backendOf).getLast?
          = some b
      ∧ envWriteOk env b
      ∧ (write_bytes_chain true true env).1.dropLast.all
          (attemptNonSuccess env) = true := by
  obtain ⟨lib, cube, oocd, direc, reconnect, retry⟩ := env
  cases lib <;> cases cube <;> cases oocd <;>
    rcases direc with e | (_ | _) <;>
    rcases reconnect with e₂ | (_ | _) <;>
    rcases retry with e₃ | (_ | _) <;>
    first
      | (intro b hb
         simp [write_bytes_chain, chainCube, chainOocd, chainDirect] at hb
         done)
      | (intro b hb
         simp [write_bytes_chain, chainCube, chainOocd, chainDirect] at hb
         subst hb
         exact ⟨rfl, by simp [envWriteOk], rfl⟩)

theorem wbchain_raise_first (env : WriteEnv) :
    ∀ e, env.lib = .raises e →
      write_bytes_chain true true env = ([Attempt.tried .lib], .raised e) := by
  obtain ⟨lib, cube, oocd, direc, reconnect, retry⟩ := env
  cases lib with
  | raises e₀ =>
      intro e he
      injection he with h
      subst h
      rfl
  | notFound => exact fun e he => absurd he (by simp)
  | writeOk => exact fun e he => absurd he (by simp)
  | writeFail => exact fun e he => absurd he (by simp)

theorem wbchain_raise_second (env : WriteEnv) :
    ∀ e, env.lib = .writeFail → env.cube = .raises e →
      write_bytes_chain true true env =
        ([Attempt.tried .lib, Attempt.tried .cube], .raised e) := by
  obtain ⟨lib, cube, oocd, direc, reconnect, retry⟩ := env
  cases lib with
  | writeFail =>
      cases cube with
      | raises e₀ =>
          intro e _ h₂
          injection h₂ with h
          subst h
          rfl
      | notFound => exact fun e _ h₂ => absurd h₂ (by simp)
      | writeOk => exact fun e _ h₂ => absurd h₂ (by simp)
      | writeFail => exact fun e _ h₂ => absurd h₂ (by simp)
  | notFound => exact fun e h₁ => absurd h₁ (by simp)
  | writeOk => exact fun e h₁ => absurd h₁ (by simp)
  | raises e₀ => exact fun e h₁ => absurd h₁ (by simp)

/-! ## Claim C4 -/

/-- C4, counterexample: the first backend is available and its write
RAISES.  `write_bytes` does not swallow the exception and move on: it
propagates, and the CLI backend is never attempted — the claim requires
it to be recorded and the next backend tried. -/
theorem write_bytes_raise_counterexample :
    write_bytes_chain true true
        { lib := .raises ⟨7, false⟩, cube := .writeOk, oocd := .writeOk,
          direct := .ok true, reconnect := .ok true, directRetry := .ok true }
      = ([Attempt.tried .lib], .raised ⟨7, false⟩)
    ∧ Attempt.tried .cube ∉
        (write_bytes_chain true true
          { lib := .raises ⟨7, false⟩, cube := .writeOk, oocd := .writeOk,
            direct := .ok true, reconnect := .ok true,
            directRetry := .ok true }).1
    ∧ Attempt.unavailable .cube ∉
        (write_bytes_chain true true
          { lib := .raises ⟨7, false⟩, cube := .writeOk, oocd := .writeOk,
            direct := .ok true, reconnect := .ok true,
            directRetry := .ok true }).1 := by
  refine ⟨rfl, by decide, by decide⟩

/-- C4, amended: `write_bytes` walks the fixed order lib → CubeProgrammer
CLI → OpenOCD → direct USB; a backend that is not found or whose write
returns false is recorded and the next is tried; on the first success the
chain stops, the success is attributed to that backend (it is the last
attempt and every earlier attempt was unavailable or returned false);
but an exception raised by a backend's write propagates out of
`write_bytes` at once instead of falling through to the next backend. -/
theorem write_bytes_backend_order_spec (env : WriteEnv) :
    ((write_bytes_chain true true env).1.map Attempt.backendOf =
      [Backend.lib, Backend.cube, Backend.oocd, Backend.direct].take
        (write_bytes_chain true true env).1.length)
    ∧ (∀ b, (write_bytes_chain true true env).2 = .success b →
        ((write_bytes_chain true true env).1.map Attempt.backendOf).getLast?
            = some b
        ∧ envWriteOk env b
        ∧ (write_bytes_chain true true env).1.dropLast.all
            (attemptNonSuccess env) = true)
    ∧ (∀ e, env.lib = .raises e →
        write_bytes_chain true true env = ([Attempt.tried .lib], .raised e))
    ∧ (∀ e, env.lib = .writeFail → env.cube = .raises e →
        write_bytes_chain true true env =
          ([Attempt.tried .lib, Attempt.tried .cube], .raised e)) :=
  ⟨wbchain_order env, wbchain_success env, wbchain_raise_first env,
    wbchain_raise_second env⟩

/-- Witness for `write_bytes_backend_order_spec`: lib unavailable, CLI
write fails, OpenOCD succeeds — attempts stop at OpenOCD and the success
is attributed to it. -/
theorem write_bytes_backend_order_spec_witness :
    (write_bytes_chain true true
        { lib := .notFound, cube := .writeFail, oocd := .writeOk,
          direct := .ok false, reconnect := .ok false,
          directRetry := .ok false }).2 = .success .oocd
    ∧ ((write_bytes_chain true true
        { lib := .notFound, cube := .writeFail, oocd := .writeOk,
          direct := .ok false, reconnect := .ok false,
          directRetry := .ok false }).1.map Attempt.backendOf).getLast?
        = some .oocd :=
  ⟨by decide,
   ((write_bytes_backend_order_spec
      { lib := .notFound, cube := .writeFail, oocd := .writeOk,
        direct := .ok false, reconnect := .ok false,
        directRetry := .ok false }).2.1 .oocd (by decide)).1⟩

theorem close_uart_ok (ue : Bool) (ce : CloseEnv) :
    close_uart ue ce = .ok none := by
  obtain ⟨io, rb, rs, rb2, cc⟩ := ce
  cases ue
  · rfl
  · rcases io with e | b
    · rfl
    · cases b
      · rfl
      · rcases rb with e | u
        · rfl
        · rcases rs with e | u
          · rfl
          · rcases rb2 with e | u
            · rfl
            · rcases cc with e | u <;> rfl

/-- The `finally` block never raises, always invokes `close_uart`, emits
only power-off and close events, and sends the power-off command
whenever the session object exists and its `is_open` probe answers
true. -/
theorem runFinallyBlock_spec (a : Bool) (env : PDEnv) :
    ∃ tr, runFinallyBlock a env = .ok tr
      ∧ Event.closeUart ∈ tr
      ∧ (∀ ev ∈ tr, ev = Event.uartSendPowerOffFinal ∨
          ev = Event.directWriteOffFinal ∨ ev = Event.closeUart)
      ∧ (a = true → env.finallyIsOpen = .ok true →
          Event.uartSendPowerOffFinal ∈ tr) := by
  unfold runFinallyBlock
  rw [close_uart_ok]
  cases a
  · exact ⟨[Event.closeUart], rfl, by simp, by simp, by simp⟩
  · cases hio : env.finallyIsOpen with
    | error e => exact ⟨[Event.closeUart], rfl, by simp, by simp, by simp [hio]⟩
    | ok b =>
        cases b
        · exact ⟨[Event.closeUart], rfl, by simp, by simp, by simp [hio]⟩
        · cases hs : env.finallySend with
          | ok c =>
              exact ⟨[Event.uartSendPowerOffFinal, Event.closeUart], rfl,
                by simp, by simp, by simp⟩
          | error e =>
              cases hio2 : env.finallyIsOpen2 with
              | error e₂ =>
                  exact ⟨[Event.uartSendPowerOffFinal, Event.closeUart], rfl,
                    by simp, by simp, by simp⟩
              | ok c =>
                  cases c
                  · exact ⟨[Event.uartSendPowerOffFinal, Event.closeUart],
                      rfl, by simp, by simp, by simp⟩
                  · cases hd : env.finallyDirect with
                    | ok u =>
                        exact ⟨[Event.uartSendPowerOffFinal,
                          Event.directWriteOffFinal, Event.closeUart], rfl,
                          by simp, by simp, by simp⟩
                    | error e₃ =>
                        exact ⟨[Event.uartSendPowerOffFinal,
                          Event.directWriteOffFinal, Event.closeUart], rfl,
                          by simp, by simp, by simp⟩

/-! ## Claim C2 -/

/-- C2: on every exit path of `program_device` — normal return, recorded
failure, exception converted by the run-level handler, cooperative stop —
the only exception that can escape is `find_devices` raising before the
`try` (when no session exists yet); whenever the body ran, the trace ends
in the `finally` block's events: the power-off send is present whenever
the session object exists and reads open, `close_uart` is always invoked,
and the power-off-and-close logic itself never raises. -/
theorem program_device_power_off_on_exit_spec (env : PDEnv) :
    (∀ e, (program_device env).result = .error e →
      env.findDevices = .error e)
    ∧ (∀ b, env.findDevices = .ok b →
        ∃ r, (program_device env).result = .ok r)
    ∧ (env.findDevices = .ok true →
        Event.closeUart ∈ (program_device env).trace
        ∧ ((runBody env).1.uartAlive = true → env.finallyIsOpen = .ok true →
            Event.uartSendPowerOffFinal ∈ (program_device env).trace))
    ∧ (env.findDevices = .ok false →
        Event.closeUart ∈ (program_device env).trace) := by
  cases hfd : env.findDevices with
  | error e =>
      refine ⟨?_, ?_, ?_, ?_⟩
      · intro e₂ hr
        simp only [program_device, hfd] at hr
        injection hr with h
        rw [h]
      · intro b hb
        exact absurd hb (by simp)
      · intro hb
        exact absurd hb (by simp)
      · intro hb
        exact absurd hb (by simp)
  | ok b =>
      cases b
      · refine ⟨?_, ?_, ?_, ?_⟩
        · intro e hr
          simp only [program_device, hfd] at hr
          exact absurd hr (by simp)
        · intro c _
          exact ⟨(false, .noDevices), by simp [program_device, hfd]⟩
        · intro hb
          exact absurd hb (by simp)
        · intro _
          simp [program_device, hfd]
      · rcases hrb : runBody env with ⟨st, br⟩
        obtain ⟨tr, hfin, hclose, hsub, hpo⟩ :=
          runFinallyBlock_spec st.uartAlive env
        have hpd : program_device env =
            ⟨Event.usbDiscover :: (st.trace ++ tr), .ok (bodyMsg br),
              st.results⟩ := by
          simp only [program_device, hfd, hrb, hfin]
        refine ⟨?_, ?_, ?_, ?_⟩
        · intro e hr
          rw [hpd] at hr
          exact absurd hr (by simp)
        · intro c _
          exact ⟨_, by rw [hpd]⟩
        · intro _
          constructor
          · rw [hpd]
            simp only [List.mem_cons, List.mem_append]
            exact Or.inr (Or.inr hclose)
          · intro halive hopen
            rw [hpd]
            simp only [List.mem_cons, List.mem_append]
            exact Or.inr (Or.inr (hpo halive hopen))

        · intro hb
          exact absurd hb (by simp)

/-- Witness for `program_device_power_off_on_exit_spec` on the healthy
environment: the run returns normally and the trace has the
power-off send and the close. -/
theorem program_device_power_off_on_exit_spec_witness :
    ((envBase.findDevices = .ok true) ∧
      Event.closeUart ∈ (program_device envBase).trace
      ∧ ((runBody envBase).1.uartAlive = true →
          envBase.finallyIsOpen = .ok true →
          Event.uartSendPowerOffFinal ∈ (program_device envBase).trace))
    ∧ Event.uartSendPowerOffFinal ∈ (program_device envBase).trace := by
  have h := (program_device_power_off_on_exit_spec envBase).2.2.1 rfl
  exact ⟨⟨rfl, h.1, h.2⟩, h.2 rfl rfl⟩

/-! ## Claim C9 -/

/-- C9: when the initial `SET EN_12V=ON` is sent but never acknowledged,
`program_device` returns `(False, message)` at once: no mode-switch
command and no flash write appear in the trace for any image, and the
`finally` close still runs. -/
theorem program_device_power_on_fatal_spec (env : PDEnv)
    (hfd : env.findDevices = .ok true) (hidx : env.indexValid = true)
    (hport : env.uartPortKnown = true) (hconn : env.connect = .ok ())
    (hpow : env.powerOn = .ok false) :
    (program_device env).result = .ok (false, .powerOnFailed)
    ∧ (∀ m, Event.uartSendModeSwitch m ∉ (program_device env).trace)
    ∧ (∀ m, Event.flashWrite m ∉ (program_device env).trace)
    ∧ Event.closeUart ∈ (program_device env).trace := by
  have hbody : runBody env =
      (⟨[Event.uartSendPowerOn], true, []⟩, .done (false, .powerOnFailed)) := by
    simp [runBody, hidx, hport, hconn, hpow]
  obtain ⟨tr, hfin, hclose, hsub, hpo⟩ := runFinallyBlock_spec true env
  have hpd : program_device env =
      ⟨Event.usbDiscover :: ([Event.uartSendPowerOn] ++ tr),
        .ok (false, .powerOnFailed), []⟩ := by
    simp only [program_device, hfd, hbody, bodyMsg, hfin]
  refine ⟨by rw [hpd], ?_, ?_, ?_⟩
  · intro m hm
    rw [hpd] at hm
    simp only [List.mem_cons, List.mem_append, List.mem_singleton] at hm
    rcases hm with h | h | h
    · exact absurd h (by simp)
    · exact absurd h (by simp)
    · rcases hsub _ h with h₂ | h₂ | h₂ <;> simp at h₂
  · intro m hm
    rw [hpd] at hm
    simp only [List.mem_cons, List.mem_append, List.mem_singleton] at hm
    rcases hm with h | h | h
    · exact absurd h (by simp)
    · exact absurd h (by simp)
    · rcases hsub _ h with h₂ | h₂ | h₂ <;> simp at h₂
  · rw [hpd]
    simp only [List.mem_cons, List.mem_append]
    exact Or.inr (Or.inr hclose)

/-- Witness for `program_device_power_on_fatal_spec` at the concrete
environment whose power-on ack never arrives. -/
theorem program_device_power_on_fatal_spec_witness :
    envC9.powerOn = .ok false
    ∧ (program_device envC9).result = .ok (false, .powerOnFailed) :=
  ⟨rfl, (program_device_power_on_fatal_spec envC9 rfl rfl rfl rfl rfl).1⟩

/-! ## Claim C8 -/

/-- C8: within one two-image run, a mode-switch failure for LV records LV
as failed and continues — HV is still switched, loaded, flashed, and its
per-image result is preserved alongside LV's — while a failed verified
write for LV ends the whole run at once with `(False, write-error)`,
never attempting HV's mode switch or flash. -/
theorem program_device_failure_asymmetry_spec (env : PDEnv)
    (hfd : env.findDevices = .ok true) (hidx : env.indexValid = true)
    (hport : env.uartPortKnown = true) (hconn : env.connect = .ok ())
    (hpow : env.powerOn = .ok true) (hstop : env.stopAfterPowerOn = false)
    (hlv : env.lvGiven = true) (hhv : env.hvGiven = true) :
    ((env.modeEnv Mode.LV).stopAtLoopStart = false →
     (env.modeEnv Mode.LV).switch = .ok false →
     imagePipelineOk (env.modeEnv Mode.HV) →
       (program_device env).results = [(Mode.LV, false), (Mode.HV, true)]
       ∧ Event.flashWrite Mode.HV ∈ (program_device env).trace
       ∧ (program_device env).result = .ok (false, .modesFailed [Mode.LV]))
    ∧ (switchPrefixOk (env.modeEnv Mode.LV) →
       (∃ a d, (env.modeEnv Mode.LV).load = .ok (a, d)) →
       (env.modeEnv Mode.LV).stopBeforeWrite = false →
       (env.modeEnv Mode.LV).writeRes = .ok false →
         (program_device env).result = .ok (false, .writeFailed Mode.LV)
         ∧ Event.flashWrite Mode.HV ∉ (program_device env).trace
         ∧ Event.uartSendModeSwitch Mode.HV ∉ (program_device env).trace
         ∧ (program_device env).results = [(Mode.LV, false)]) := by
  constructor
  · intro hstopLV hswLV hok
    obtain ⟨⟨h₁, h₂, h₃, h₄, h₅, h₆⟩, ⟨a₀, d₀, h₇⟩, h₈, h₉, h₁₀, h₁₁, h₁₂⟩ := hok
    have hbody : runBody env =
        (⟨[Event.uartSendPowerOn, Event.uartSendModeSwitch Mode.LV,
            Event.uartSendModeSwitch Mode.HV, Event.usbDiscover,
            Event.loadImage Mode.HV, Event.flashWrite Mode.HV,
            Event.uartSendPowerCycleOff Mode.HV,
            Event.uartSendPowerCycleOn Mode.HV],
          true, [(Mode.LV, false), (Mode.HV, true)]⟩,
          .done (false, .modesFailed [Mode.LV])) := by
      simp [runBody, runImages, runOneImage, switchPhase, loadPhase,
        writePhase, cyclePhase, lvPhase, recordResult, hidx, hport, hconn,
        hpow, hstop, hlv, hhv, hstopLV, hswLV, h₁, h₂, h₃, h₄, h₅, h₆, h₇,
        h₈, h₉, h₁₀, h₁₁, h₁₂]
    obtain ⟨tr, hfin, hclose, hsub, hpo⟩ := runFinallyBlock_spec true env
    have hpd : program_device env =
        ⟨Event.usbDiscover ::
          ([Event.uartSendPowerOn, Event.uartSendModeSwitch Mode.LV,
            Event.uartSendModeSwitch Mode.HV, Event.usbDiscover,
            Event.loadImage Mode.HV, Event.flashWrite Mode.HV,
            Event.uartSendPowerCycleOff Mode.HV,
            Event.uartSendPowerCycleOn Mode.HV] ++ tr),
          .ok (false, .modesFailed [Mode.LV]),
          [(Mode.LV, false), (Mode.HV, true)]⟩ := by
      simp only [program_device, hfd, hbody, bodyMsg, hfin]
    refine ⟨by rw [hpd], ?_, by rw [hpd]⟩
    rw [hpd]
    simp
  · intro hpre hld hstopW hwr
    obtain ⟨h₁, h₂, h₃, h₄, h₅, h₆⟩ := hpre
    obtain ⟨a₀, d₀, h₇⟩ := hld
    have hbody : runBody env =
        (⟨[Event.uartSendPowerOn, Event.uartSendModeSwitch Mode.LV,
            Event.usbDiscover, Event.loadImage Mode.LV,
            Event.flashWrite Mode.LV],
          true, [(Mode.LV, false)]⟩,
          .done (false, .writeFailed Mode.LV)) := by
      simp [runBody, runImages, runOneImage, switchPhase, loadPhase,
        writePhase, cyclePhase, lvPhase, recordResult, hidx, hport, hconn,
        hpow, hstop, hlv, hhv, h₁, h₂, h₃, h₄, h₅, h₆, h₇, hstopW, hwr]
    obtain ⟨tr, hfin, hclose, hsub, hpo⟩ := runFinallyBlock_spec true env
    have hpd : program_device env =
        ⟨Event.usbDiscover ::
          ([Event.uartSendPowerOn, Event.uartSendModeSwitch Mode.LV,
            Event.usbDiscover, Event.loadImage Mode.LV,
            Event.flashWrite Mode.LV] ++ tr),
          .ok (false, .writeFailed Mode.LV), [(Mode.LV, false)]⟩ := by
      simp only [program_device, hfd, hbody, bodyMsg, hfin]
    refine ⟨by rw [hpd], ?_, ?_, by rw [hpd]⟩
    · intro hm
      rw [hpd] at hm
      simp only [List.mem_cons, List.mem_append] at hm
      rcases hm with h | h | h
      · exact absurd h (by simp)
      · simp at h
      · rcases hsub _ h with h₂ | h₂ | h₂ <;> simp at h₂
    · intro hm
      rw [hpd] at hm
      simp only [List.mem_cons, List.mem_append] at hm
      rcases hm with h | h | h
      · exact absurd h (by simp)
      · simp at h
      · rcases hsub _ h with h₂ | h₂ | h₂ <;> simp at h₂

/-- Witness for `program_device_failure_asymmetry_spec`: LV's switch
fails, HV is healthy — HV's success is preserved next to LV's failure. -/
theorem program_device_failure_asymmetry_spec_witness :
    (envC8.modeEnv Mode.LV).switch = .ok false
    ∧ (program_device envC8).results = [(Mode.LV, false), (Mode.HV, true)] :=
  ⟨rfl,
    ((program_device_failure_asymmetry_spec envC8 rfl rfl rfl rfl rfl rfl
      rfl rfl).1 rfl rfl
      ⟨⟨rfl, rfl, rfl, rfl, rfl, rfl⟩, ⟨0x08000000, [0x01, 0x02], rfl⟩,
        rfl, rfl, rfl, rfl, rfl⟩).1⟩

/-! ## Claim C7 -/

/-- C7, counterexample: a checksum-bad record makes the loader raise a
distinguishable error (first clause binds the loader model), but in the
run the LV image's load failure happens only AFTER hardware I/O: every
event before `loadImage LV` in the trace includes the power-on UART
command, refuting "fails fast before any hardware I/O is attempted by
the run". -/
theorem firmware_error_after_io_counterexample :
    parse_intel_hex [[':', '0', '0', '0', '0', '0', '0', '0', '1', '0', '0']]
      = .error (.checksum 1)
    ∧ (envC7.modeEnv Mode.LV).load = .error (.checksum 3)
    ∧ ((program_device envC7).trace.takeWhile
        (fun ev => !(ev == Event.loadImage Mode.LV))).any Event.isHardwareIO
      = true
    ∧ (program_device envC7).result = .ok (false, .modesFailed [Mode.LV]) := by
  refine ⟨rfl, rfl, rfl, rfl⟩

/-- C7, amended: a malformed image (bad checksum, malformed record,
empty image) makes the loader fail with a distinguishable error, and
`parse_intel_hex` never succeeds with an empty image; in `program_device`
a caught loader error records that image as failed without attempting its
flash write and the run continues to the remaining image — but the
failure happens only after hardware I/O (the power-on command precedes
the load in the trace), not before. -/
theorem firmware_format_error_spec :
    (∀ lines a d, parse_intel_hex lines = .ok (a, d) → d ≠ [])
    ∧ (∀ (env : PDEnv) (e : ParseErr),
        env.findDevices = .ok true → env.indexValid = true →
        env.uartPortKnown = true → env.connect = .ok () →
        env.powerOn = .ok true → env.stopAfterPowerOn = false →
        env.lvGiven = true → env.hvGiven = true →
        switchPrefixOk (env.modeEnv Mode.LV) →
        (env.modeEnv Mode.LV).load = .error e →
        e.isCaughtByLoader = true →
        imagePipelineOk (env.modeEnv Mode.HV) →
          (program_device env).results = [(Mode.LV, false), (Mode.HV, true)]
          ∧ Event.flashWrite Mode.LV ∉ (program_device env).trace
          ∧ Event.flashWrite Mode.HV ∈ (program_device env).trace
          ∧ ∃ pre post, (program_device env).trace =
              pre ++ (Event.loadImage Mode.LV :: post)
              ∧ Event.uartSendPowerOn ∈ pre) := by
  constructor
  · intro lines a d h
    unfold parse_intel_hex at h
    cases hpl : parseHexLines 1 ⟨[], 0, 0, false⟩ lines with
    | error e => simp [hpl] at h
    | ok st =>
        simp only [hpl] at h
        cases hdata : st.data with
        | nil => simp [hdata] at h
        | cons q qs =>
            simp only [hdata, Except.ok.injEq, Prod.mk.injEq] at h
            intro hd
            rw [hd] at h
            have hlen := congrArg List.length h.2
            simp only [List.length_map, List.length_range, List.length_nil]
              at hlen
            omega
  · intro env e hfd hidx hport hconn hpow hstop hlv hhv hpre hld hcaught hok
    obtain ⟨h₁, h₂, h₃, h₄, h₅, h₆⟩ := hpre
    obtain ⟨⟨g₁, g₂, g₃, g₄, g₅, g₆⟩, ⟨a₀, d₀, g₇⟩, g₈, g₉, g₁₀, g₁₁, g₁₂⟩ :=
      hok
    have hbody : runBody env =
        (⟨[Event.uartSendPowerOn, Event.uartSendModeSwitch Mode.LV,
            Event.usbDiscover, Event.loadImage Mode.LV,
            Event.uartSendModeSwitch Mode.HV, Event.usbDiscover,
            Event.loadImage Mode.HV, Event.flashWrite Mode.HV,
            Event.uartSendPowerCycleOff Mode.HV,
            Event.uartSendPowerCycleOn Mode.HV],
          true, [(Mode.LV, false), (Mode.HV, true)]⟩,
          .done (false, .modesFailed [Mode.LV])) := by
      simp [runBody, runImages, runOneImage, switchPhase, loadPhase,
        writePhase, cyclePhase, lvPhase, recordResult, hidx, hport, hconn,
        hpow, hstop, hlv, hhv, h₁, h₂, h₃, h₄, h₅, h₆, hld, hcaught, g₁,
        g₂, g₃, g₄, g₅, g₆, g₇, g₈, g₉, g₁₀, g₁₁, g₁₂]
    obtain ⟨tr, hfin, hclose, hsub, hpo⟩ := runFinallyBlock_spec true env
    have hpd : program_device env =
        ⟨Event.usbDiscover ::
          ([Event.uartSendPowerOn, Event.uartSendModeSwitch Mode.LV,
            Event.usbDiscover, Event.loadImage Mode.LV,
            Event.uartSendModeSwitch Mode.HV, Event.usbDiscover,
            Event.loadImage Mode.HV, Event.flashWrite Mode.HV,
            Event.uartSendPowerCycleOff Mode.HV,
            Event.uartSendPowerCycleOn Mode.HV] ++ tr),
          .ok (false, .modesFailed [Mode.LV]),
          [(Mode.LV, false), (Mode.HV, true)]⟩ := by
      simp only [program_device, hfd, hbody, bodyMsg, hfin]
    refine ⟨by rw [hpd], ?_, ?_, ?_⟩
    · intro hm
      rw [hpd] at hm
      simp only [List.mem_cons, List.mem_append] at hm
      rcases hm with h | h | h
      · exact absurd h (by simp)
      · simp at h
      · rcases hsub _ h with h₂ | h₂ | h₂ <;> simp at h₂
    · rw [hpd]
      simp
    · refine ⟨[Event.usbDiscover, Event.uartSendPowerOn,
        Event.uartSendModeSwitch Mode.LV, Event.usbDiscover],
        [Event.uartSendModeSwitch Mode.HV, Event.usbDiscover,
          Event.loadImage Mode.HV, Event.flashWrite Mode.HV,
          Event.uartSendPowerCycleOff Mode.HV,
          Event.uartSendPowerCycleOn Mode.HV] ++ tr, ?_, by simp⟩
      rw [hpd]
      simp

/-- Witness for `firmware_format_error_spec`: on `envC7` (malformed LV
image, healthy HV) the run records LV failed and still flashes HV. -/
theorem firmware_format_error_spec_witness :
    (envC7.modeEnv Mode.LV).load = .error (.checksum 3)
    ∧ (program_device envC7).results = [(Mode.LV, false), (Mode.HV, true)]
    ∧ Event.flashWrite Mode.LV ∉ (program_device envC7).trace :=
  ⟨rfl,
    (firmware_format_error_spec.2 envC7 (.checksum 3) rfl rfl rfl rfl rfl
      rfl rfl rfl ⟨rfl, rfl, rfl, rfl, rfl, rfl⟩ rfl rfl
      ⟨⟨rfl, rfl, rfl, rfl, rfl, rfl⟩, ⟨0x08000000, [0x01, 0x02], rfl⟩,
        rfl, rfl, rfl, rfl, rfl⟩).1,
    (firmware_format_error_spec.2 envC7 (.checksum 3) rfl rfl rfl rfl rfl
      rfl rfl rfl ⟨rfl, rfl, rfl, rfl, rfl, rfl⟩ rfl rfl
      ⟨⟨rfl, rfl, rfl, rfl, rfl, rfl⟩, ⟨0x08000000, [0x01, 0x02], rfl⟩,
        rfl, rfl, rfl, rfl, rfl⟩).2.1⟩

end STM32
